import Mathlib

/-!
Verification development for the `lr-wpan-rs` IEEE 802.15.4 MAC implementation.

The definitions below are a shallow embedding of the relevant Rust source:

* `src/lr-wpan-rs/src/lib.rs` (`ChannelPage`, `cw0`)
* `src/lr-wpan-rs/src/time.rs` (`Instant`, `Duration`)
* `src/lr-wpan-rs/src/consts.rs` (protocol constants)
* `src/lr-wpan-rs/src/mac/state.rs` and `src/src/mac/state.rs` (`MessageScheduler`)
* `src/src/pib.rs` (`PhyPibWrite`, `MacPibWrite`, `PibValue`, derived attributes)
* `src/src/mac/mlme_set.rs` (`set_pib_value`)
* `src/src/mac/mlme_scan.rs` (`ScanProcess`)
* `src/lr-wpan-rs/src/mac/mod.rs` (request dispatch, `process_message` event queue)
* `src/src/wire/beacon.rs` (beacon wire codec)

Machine integers are modelled as `Nat`/`Int` with explicit wrapping or bound
hypotheses where the Rust types matter.  Rust panics (`unwrap`, `todo!`,
`unreachable!`, checked-arithmetic aborts) are modelled as `Option`/`none`.
-/

namespace LrWpan

/-- Maximum value of a Rust `i64`. -/
def i64_max : Nat := 2 ^ 63 - 1

/-- Modulus of a Rust `u32`. -/
def u32_mod : Nat := 2 ^ 32

/-- Modulus of a Rust `u64`. -/
def u64_mod : Nat := 2 ^ 64

/-! ## Constants, from `src/lr-wpan-rs/src/consts.rs` -/

/-- Symbols forming a superframe slot at superframe order zero (`aBaseSlotDuration`). -/
def BASE_SLOT_DURATION : Nat := 60

/-- Slots in any superframe (`aNumSuperframeSlots`). -/
def NUM_SUPERFRAME_SLOTS : Nat := 16

/-- Symbols forming a superframe at superframe order zero (`aBaseSuperframeDuration`). -/
def BASE_SUPERFRAME_DURATION : Nat := BASE_SLOT_DURATION * NUM_SUPERFRAME_SLOTS

/-- Basic CSMA-CA backoff period in symbols (`aUnitBackoffPeriod`). -/
def UNIT_BACKOFF_PERIOD : Nat := 20

/-- RX-to-TX / TX-to-RX turnaround time in symbols (`aTurnaroundTime`). -/
def TURNAROUND_TIME : Nat := 12

/-- Maximum PSDU size in octets (`aMaxPHYPacketSize`). -/
def MAX_PHY_PACKET_SIZE : Nat := 127

/-- Minimum MAC overhead added to the PSDU (`aMinMPDUOverhead`). -/
def MIN_MPDU_OVERHEAD : Nat := 9

/-- Maximum MAC payload size (`aMaxMACPayloadSize`). -/
def MAX_MAC_PAYLOAD_SIZE : Nat := MAX_PHY_PACKET_SIZE - MIN_MPDU_OVERHEAD

/-- Maximum beacon overhead (`aMaxBeaconOverhead`). -/
def MAX_BEACON_OVERHEAD : Nat := 75

/-- Maximum beacon payload length (`aMaxBeaconPayloadLength`). -/
def MAX_BEACON_PAYLOAD_LENGTH : Nat := MAX_PHY_PACKET_SIZE - MAX_BEACON_OVERHEAD

/-! ## Channel pages, from `src/lr-wpan-rs/src/lib.rs` -/

/-- The channel pages defined in 8.1.2, `ChannelPage` in `lib.rs`. -/
inductive ChannelPage where
  | Mhz868_915_2450
  | Mhz868_915_1
  | Mhz868_915_2
  | Css
  | Uwb
  | Mhz780
  | Mhz950
deriving DecidableEq, Repr

/-- `ChannelPage::cw0` from `lib.rs` lines 58-72: the initial contention window
length CW0 per channel page. -/
def ChannelPage.cw0 : ChannelPage → Nat
  | .Mhz868_915_2450 => 2
  | .Mhz868_915_1 => 2
  | .Mhz868_915_2 => 2
  | .Css => 2
  | .Uwb => 2
  | .Mhz780 => 2
  | .Mhz950 => 1

/-! ## Time, from `src/lr-wpan-rs/src/time.rs` -/

/-- An instant of time; `ticks` is the `u64` tick counter. -/
structure Instant where
  ticks : Nat
deriving DecidableEq, Repr

/-- A span of time; `ticks` is the `i64` tick count. -/
structure Duration where
  ticks : Int
deriving DecidableEq, Repr

/-- `Instant::checked_duration_since`: signed difference `self - other`, or
`none` when the absolute difference (`abs_diff`, modelled with `Nat.dist`)
does not fit an `i64`.  The `negative` flag of the source is the inner
`if` condition. -/
def Instant.checked_duration_since (self other : Instant) : Option Duration :=
  if Nat.dist self.ticks other.ticks > i64_max then none
  else
    some ⟨(Nat.dist self.ticks other.ticks : Int) *
      (if other.ticks > self.ticks then -1 else 1)⟩

/-- `Instant::duration_since`: `unwrap!` of `checked_duration_since`; the panic
on overflow is modelled as `none`. -/
def Instant.duration_since (self other : Instant) : Option Duration :=
  Instant.checked_duration_since self other

/-- The `Sub<Instant> for Instant` implementation in `time.rs` lines 103-109:
`self - rhs` is defined as `rhs.duration_since(self)`. -/
def Instant.sub_instant (self rhs : Instant) : Option Duration :=
  Instant.duration_since rhs self

/-! ## Message scheduler, from `src/lr-wpan-rs/src/mac/state.rs` lines 102-152
(the `src/src/mac/state.rs` copy has the identical broadcast-queue code).
The `data_requests` field and the send callbacks are not needed by any claim
and are left out of the model; a scheduled message is represented by its
serialized bytes. -/

/-- A scheduled broadcast message (`ScheduledMessage`), keeping only its data. -/
structure ScheduledMessage where
  data : List Nat
deriving DecidableEq, Repr

/-- The broadcast queue of `MessageScheduler`: an `ArrayDeque` of capacity 4,
front of the queue at the head of the list. -/
structure MessageScheduler where
  scheduled_broadcasts : List ScheduledMessage
deriving DecidableEq, Repr

/-- A `MessageScheduler` with an empty broadcast queue. -/
def MessageScheduler.empty : MessageScheduler := ⟨[]⟩

/-- `MessageScheduler::schedule_broadcast_priority`: `push_front` on the
deque; the panic when the deque is at capacity is modelled as `none`. -/
def MessageScheduler.schedule_broadcast_priority (self : MessageScheduler)
    (msg : ScheduledMessage) : Option MessageScheduler :=
  if self.scheduled_broadcasts.length < 4 then
    some ⟨msg :: self.scheduled_broadcasts⟩
  else
    none

/-- `MessageScheduler::schedule_broadcast` (the non-priority variant): the
source also calls `push_front`, exactly like the priority variant; the panic
when the deque is at capacity is modelled as `none`. -/
def MessageScheduler.schedule_broadcast (self : MessageScheduler)
    (msg : ScheduledMessage) : Option MessageScheduler :=
  if self.scheduled_broadcasts.length < 4 then
    some ⟨msg :: self.scheduled_broadcasts⟩
  else
    none

/-- `MessageScheduler::has_broadcast_scheduled`. -/
def MessageScheduler.has_broadcast_scheduled (self : MessageScheduler) : Bool :=
  !self.scheduled_broadcasts.isEmpty

/-- `MessageScheduler::take_scheduled_broadcast`: `pop_front` on the deque,
returning the popped message. -/
def MessageScheduler.take_scheduled_broadcast (self : MessageScheduler) :
    Option ScheduledMessage :=
  self.scheduled_broadcasts.head?

/-! ## Addressing and shared wire types, from `src/src/wire` -/

/-- A 16-bit short address (`ShortAddress`, a `u16` newtype). -/
structure ShortAddress where
  val : Nat
deriving DecidableEq, Repr

/-- The broadcast short address `0xFFFF`. -/
def ShortAddress.BROADCAST : ShortAddress := ⟨0xFFFF⟩

/-- A 64-bit extended EUI-64 address (`ExtendedAddress`, a `u64` newtype). -/
structure ExtendedAddress where
  val : Nat
deriving DecidableEq, Repr

/-- The broadcast extended address. -/
def ExtendedAddress.BROADCAST : ExtendedAddress := ⟨0xFFFFFFFFFFFFFFFF⟩

/-- A 16-bit PAN identifier (`PanId`, a `u16` newtype). -/
structure PanId where
  val : Nat
deriving DecidableEq, Repr

/-- The broadcast PAN id `0xFFFF` (`PanId::broadcast`). -/
def PanId.broadcast : PanId := ⟨0xFFFF⟩

/-- `BeaconOrder` from `src/src/wire/beacon.rs`: 0-14, or on demand (15). -/
inductive BeaconOrder where
  | beaconOrder (v : Nat)
  | onDemand
deriving DecidableEq, Repr

/-- `From<u8> for BeaconOrder`: 0-14 map to `beaconOrder`, the rest to `onDemand`. -/
def BeaconOrder.fromU8 (value : Nat) : BeaconOrder :=
  if value ≤ 14 then .beaconOrder value else .onDemand

/-- `From<BeaconOrder> for u8`. -/
def BeaconOrder.toU8 : BeaconOrder → Nat
  | .beaconOrder v => v
  | .onDemand => 15

/-- `SuperframeOrder` from `src/src/wire/beacon.rs`: 0-14, or inactive (15). -/
inductive SuperframeOrder where
  | superframeOrder (v : Nat)
  | inactive
deriving DecidableEq, Repr

/-- `From<u8> for SuperframeOrder`: 0-14 map to `superframeOrder`, the rest to
`inactive`. -/
def SuperframeOrder.fromU8 (value : Nat) : SuperframeOrder :=
  if value ≤ 14 then .superframeOrder value else .inactive

/-- `From<SuperframeOrder> for u8`. -/
def SuperframeOrder.toU8 : SuperframeOrder → Nat
  | .superframeOrder v => v
  | .inactive => 15

/-! ## Status codes, from `src/src/sap` -/

/-- The subset of the SAP `Status` taxonomy used by the embedded operations. -/
inductive Status where
  | Success
  | ReadOnly
  | InvalidParameter
  | UnsupportedAttribute
  | PhyError
  | NoShortAddress
  | ChannelAccessFailure
  | SuperframeOverlap
  | TrackingOff
  | NoAck
  | NoData
  | AlreadyAssociated
  | ScanInProgress
  | LimitReached
  | NoBeacon
deriving DecidableEq, Repr

/-! ## PIB, from `src/src/pib.rs` -/

/-- A raw `f32` bit pattern.  The PIB stores one float
(`phySymbolsPerOctet`); no embedded operation computes with it, so it is
carried as opaque data. -/
structure F32 where
  bits : Nat
deriving DecidableEq, Repr

/-- `SequenceNumber`: a wrapping `u8` counter. -/
structure SequenceNumber where
  value : Nat
deriving DecidableEq, Repr

/-- `SequenceNumber::increment`: wrapping add of one, returning the new value. -/
def SequenceNumber.increment (self : SequenceNumber) : SequenceNumber × Nat :=
  let v := (self.value + 1) % 256
  (⟨v⟩, v)

/-- `ChannelDescription` from `pib.rs`. -/
structure ChannelDescription where
  page : ChannelPage
  channel_numbers : List Nat
deriving DecidableEq, Repr

/-- `TXPowerTolerance` from `pib.rs`. -/
inductive TXPowerTolerance where
  | DB1
  | DB3
  | DB6
deriving DecidableEq, Repr

/-- `CcaMode` from `pib.rs` (8.2.7). -/
inductive CcaMode where
  | EnergyAboveThreshold
  | CarrierSenseOnly
  | CarrierSenseEnergyAboveTheshold
  | Aloha
  | UwbPreambleSenseShr
  | UwbPreambleSensePacket
deriving DecidableEq, Repr

/-- `UwbCurrentPulseShape` from `pib.rs`. -/
inductive UwbCurrentPulseShape where
  | Mandatory
  | Cou
  | Cs
  | Lcp
deriving DecidableEq, Repr

/-- `UwbCouPulse` from `pib.rs`. -/
inductive UwbCouPulse where
  | CCh1
  | CCh2
  | CCh3
  | CCh4
  | CCh5
  | CCh6
deriving DecidableEq, Repr

/-- `UwbCsPulse` from `pib.rs`. -/
inductive UwbCsPulse where
  | No1
  | No2
  | No3
  | No4
  | No5
  | No6
deriving DecidableEq, Repr

/-- `NativePrf` from `pib.rs`. -/
inductive NativePrf where
  | NonUwb
  | Prf4
  | Prf16
  | NoPreference
deriving DecidableEq, Repr

/-- The `PibValue` tagged union from `pib.rs`.  Widths: `u8`/`u16`/`u32`/
`usize` payloads are `Nat`, `i8`/`i16`/`i64` payloads are `Int`. -/
inductive PibValue where
  | none
  | phyChannelsSupported (v : List ChannelDescription)
  | phyMaxFrameDuration (v : Nat)
  | phyShrDuration (v : Nat)
  | phySymbolsPerOctet (v : F32)
  | phyPreambleSymbolLength (v : Nat)
  | phyUwbDataRatesSupported (v : List Nat)
  | phyCssLowDataRateSupported (v : Bool)
  | phyUwbCouSupported (v : Bool)
  | phyUwbCsSupported (v : Bool)
  | phyUwbLcpSupported (v : Bool)
  | phyRanging (v : Bool)
  | phyRangingCrystalOffset (v : Bool)
  | phyRangingDps (v : Bool)
  | phyCurrentChannel (v : Nat)
  | phyTxPowerTolerance (v : TXPowerTolerance)
  | phyTxPower (v : Int)
  | phyCcaMode (v : CcaMode)
  | phyCurrentPage (v : ChannelPage)
  | phyUwbCurrentPulseShape (v : UwbCurrentPulseShape)
  | phyUwbCouPulse (v : UwbCouPulse)
  | phyUwbCsPulse (v : UwbCsPulse)
  | phyUwbLcpWeight1 (v : Int)
  | phyUwbLcpWeight2 (v : Int)
  | phyUwbLcpWeight3 (v : Int)
  | phyUwbLcpWeight4 (v : Int)
  | phyUwbLcpDelay2 (v : Nat)
  | phyUwbLcpDelay3 (v : Nat)
  | phyUwbLcpDelay4 (v : Nat)
  | phyCurrentCode (v : Nat)
  | phyNativePrf (v : NativePrf)
  | phyUwbScanBinsPerChannel (v : Nat)
  | phyUwbInsertedPreambleInterval (v : Nat)
  | phyTxRmarkerOffset (v : Nat)
  | phyRxRmarkerOffset (v : Nat)
  | phyRframeProcessingTime (v : Nat)
  | phyCcaDuration (v : Nat)
  | macExtendedAddress (v : ExtendedAddress)
  | macAckWaitDuration (v : Nat)
  | macAssociatedPanCoord (v : Bool)
  | macBeaconPayload (v : List Nat)
  | macBeaconPayloadLength (v : Nat)
  | macBeaconTxTime (v : Int)
  | macBsn (v : Nat)
  | macCoordExtendedAddress (v : ExtendedAddress)
  | macCoordShortAddress (v : ShortAddress)
  | macDsn (v : Nat)
  | macMaxFrameTotalWaitTime (v : Nat)
  | macLifsPeriod (v : Nat)
  | macSifsPeriod (v : Nat)
  | macPanId (v : PanId)
  | macRangingSupported (v : Bool)
  | macShortAddress (v : ShortAddress)
  | macSuperframeOrder (v : SuperframeOrder)
  | macSyncSymbolOffset (v : Nat)
  | macTimestampSupported (v : Bool)
  | macTransactionPersistenceTime (v : Nat)
  | macTxControlActiveDuration (v : Nat)
  | macTxControlPauseDuration (v : Nat)
  | macTxTotalDuration (v : Nat)
  | macAssociationPermit (v : Bool)
  | macAutoRequest (v : Bool)
  | macBattLifeExt (v : Bool)
  | macBattLifeExtPeriods (v : Nat)
  | macBeaconOrder (v : BeaconOrder)
  | macGtsPermit (v : Bool)
  | macMaxBe (v : Nat)
  | macMaxCsmaBackoffs (v : Nat)
  | macMaxFrameRetries (v : Nat)
  | macMinBe (v : Nat)
  | macPromiscuousMode (v : Bool)
  | macResponseWaitTime (v : Nat)
  | macRxOnWhenIdle (v : Bool)
  | macSecurityEnabled (v : Bool)

/-- The writable half of the PHY PIB (`PhyPibWrite` from `pib.rs`). -/
structure PhyPibWrite where
  current_channel : Nat
  tx_power_tolerance : TXPowerTolerance
  tx_power : Int
  cca_mode : CcaMode
  current_page : ChannelPage
  uwb_current_pulse_shape : UwbCurrentPulseShape
  uwb_cou_pulse : UwbCouPulse
  uwb_cs_pulse : UwbCsPulse
  uwb_lcp_weight1 : Int
  uwb_lcp_weight2 : Int
  uwb_lcp_weight3 : Int
  uwb_lcp_weight4 : Int
  uwb_lcp_delay2 : Nat
  uwb_lcp_delay3 : Nat
  uwb_lcp_delay4 : Nat
  current_code : Nat
  native_prf : NativePrf
  uwb_scan_bins_per_channel : Nat
  uwb_inserted_preamble_interval : Nat
  tx_rmarker_offset : Nat
  rx_rmarker_offset : Nat
  rframe_processing_time : Nat
  cca_duration : Nat
deriving DecidableEq, Repr

/-- The full PHY PIB (`PhyPib` from `pib.rs`): the writable half plus the
read-only attributes. -/
structure PhyPib where
  pib_write : PhyPibWrite
  channels_supported : List ChannelDescription
  max_frame_duration : Nat
  shr_duration : Nat
  symbols_per_octet : F32
  preamble_symbol_length : Nat
  uwb_data_rates_supported : List Nat
  css_low_data_rate_supported : Bool
  uwb_cou_supported : Bool
  uwb_cs_supported : Bool
  uwb_lcp_supported : Bool
  ranging : Bool
  ranging_crystal_offset : Bool
  ranging_dps : Bool
deriving DecidableEq, Repr

/-- Reduction-friendly model of `str::starts_with`: byte-for-byte prefix
test on the character data. -/
def starts_with (s p : String) : Bool := p.data.isPrefixOf s.data

/-- `PhyPibWrite::set` from `pib.rs` lines 411-434: stores the value for the
attributes listed in the match and returns `Success`; every other variant
falls into the `unreachable!()` branch, modelled as `none` (a panic). -/
def PhyPibWrite.set (self : PhyPibWrite) (value : PibValue) :
    Option (PhyPibWrite × Status) :=
  match value with
  | .phyCurrentChannel v => some ({ self with current_channel := v }, .Success)
  | .phyTxPowerTolerance v => some ({ self with tx_power_tolerance := v }, .Success)
  | .phyTxPower v => some ({ self with tx_power := v }, .Success)
  | .phyCcaMode v => some ({ self with cca_mode := v }, .Success)
  | .phyCurrentPage v => some ({ self with current_page := v }, .Success)
  | .phyUwbCurrentPulseShape v => some ({ self with uwb_current_pulse_shape := v }, .Success)
  | .phyUwbCouPulse v => some ({ self with uwb_cou_pulse := v }, .Success)
  | .phyUwbCsPulse v => some ({ self with uwb_cs_pulse := v }, .Success)
  | .phyUwbLcpWeight1 v => some ({ self with uwb_lcp_weight1 := v }, .Success)
  | .phyUwbLcpWeight2 v => some ({ self with uwb_lcp_weight2 := v }, .Success)
  | .phyUwbLcpWeight3 v => some ({ self with uwb_lcp_weight3 := v }, .Success)
  | .phyUwbLcpWeight4 v => some ({ self with uwb_lcp_weight4 := v }, .Success)
  | .phyUwbLcpDelay2 v => some ({ self with uwb_lcp_delay2 := v }, .Success)
  | .phyUwbLcpDelay3 v => some ({ self with uwb_lcp_delay3 := v }, .Success)
  | .phyUwbLcpDelay4 v => some ({ self with uwb_lcp_delay4 := v }, .Success)
  | .phyCurrentCode v => some ({ self with current_code := v }, .Success)
  | .phyNativePrf v => some ({ self with native_prf := v }, .Success)
  | _ => none

/-- `PhyPibWrite::try_set` from `pib.rs` lines 339-409.  The outer `Option`
is the `Option<Status>` of the source (`none` when the attribute is not a
`phy` attribute); the inner `Option` models a panic inside `set`.  The source
mutates `self` in place; the model returns the updated PIB next to the
status. -/
def PhyPibWrite.try_set (self : PhyPibWrite) (attr_name : String) (value : PibValue) :
    Option (Option (PhyPibWrite × Status)) :=
  if starts_with attr_name "phy" then
    some (match attr_name with
      | "phyChannelsSupported" => some (self, .ReadOnly)
      | "phyMaxFrameDuration" => some (self, .ReadOnly)
      | "phySHRDuration" => some (self, .ReadOnly)
      | "phySymbolsPerOctet" => some (self, .ReadOnly)
      | "phyPreambleSymbolLength" => some (self, .ReadOnly)
      | "phyUWBDataRatesSupported" => some (self, .ReadOnly)
      | "phyCSSLowDataRateSupported" => some (self, .ReadOnly)
      | "phyUWBCoUSupported" => some (self, .ReadOnly)
      | "phyUWBCSSupported" => some (self, .ReadOnly)
      | "phyUWBLCPSupported" => some (self, .ReadOnly)
      | "phyRanging" => some (self, .ReadOnly)
      | "phyRangingCrystalOffset" => some (self, .ReadOnly)
      | "phyRangingDPS" => some (self, .ReadOnly)
      | "phyCurrentChannel" =>
        match value with
        | .phyCurrentChannel v => self.set (.phyCurrentChannel v)
        | _ => some (self, .InvalidParameter)
      | "phyTXPowerTolerance" =>
        match value with
        | .phyTxPowerTolerance v => self.set (.phyTxPowerTolerance v)
        | _ => some (self, .InvalidParameter)
      | "phyTXPower" =>
        match value with
        | .phyTxPower v => self.set (.phyTxPower v)
        | _ => some (self, .InvalidParameter)
      | "phyCCAMode" =>
        match value with
        | .phyCcaMode v => self.set (.phyCcaMode v)
        | _ => some (self, .InvalidParameter)
      | "phyCurrentPage" =>
        match value with
        | .phyCurrentPage v => self.set (.phyCurrentPage v)
        | _ => some (self, .InvalidParameter)
      | "phyUWBCurrentPulseShape" =>
        match value with
        | .phyUwbCurrentPulseShape v => self.set (.phyUwbCurrentPulseShape v)
        | _ => some (self, .InvalidParameter)
      | "phyUWBCoUpulse" =>
        match value with
        | .phyUwbCouPulse v => self.set (.phyUwbCouPulse v)
        | _ => some (self, .InvalidParameter)
      | "phyUWBCSpulse" =>
        match value with
        | .phyUwbCsPulse v => self.set (.phyUwbCsPulse v)
        | _ => some (self, .InvalidParameter)
      | "phyUWBLCPWeight1" =>
        match value with
        | .phyUwbLcpWeight1 v => self.set (.phyUwbLcpWeight1 v)
        | _ => some (self, .InvalidParameter)
      | "phyUWBLCPWeight2" =>
        match value with
        | .phyUwbLcpWeight2 v => self.set (.phyUwbLcpWeight2 v)
        | _ => some (self, .InvalidParameter)
      | "phyUWBLCPWeight3" =>
        match value with
        | .phyUwbLcpWeight3 v => self.set (.phyUwbLcpWeight3 v)
        | _ => some (self, .InvalidParameter)
      | "phyUWBLCPWeight4" =>
        match value with
        | .phyUwbLcpWeight4 v => self.set (.phyUwbLcpWeight4 v)
        | _ => some (self, .InvalidParameter)
      | "phyUWBLCPDelay2" =>
        match value with
        | .phyUwbLcpDelay2 v => self.set (.phyUwbLcpDelay2 v)
        | _ => some (self, .InvalidParameter)
      | "phyUWBLCPDelay3" =>
        match value with
        | .phyUwbLcpDelay3 v => self.set (.phyUwbLcpDelay3 v)
        | _ => some (self, .InvalidParameter)
      | "phyUWBLCPDelay4" =>
        match value with
        | .phyUwbLcpDelay4 v => self.set (.phyUwbLcpDelay4 v)
        | _ => some (self, .InvalidParameter)
      | "phyCurrentCode" =>
        match value with
        | .phyCurrentCode v => self.set (.phyCurrentCode v)
        | _ => some (self, .InvalidParameter)
      | "phyNativePRF" =>
        match value with
        | .phyNativePrf v => self.set (.phyNativePrf v)
        | _ => some (self, .InvalidParameter)
      | "phyUWBScanBinsPerChannel" =>
        match value with
        | .phyUwbScanBinsPerChannel v => self.set (.phyUwbScanBinsPerChannel v)
        | _ => some (self, .InvalidParameter)
      | "phyUWBInsertedPreambleInterval" =>
        match value with
        | .phyUwbInsertedPreambleInterval v => self.set (.phyUwbInsertedPreambleInterval v)
        | _ => some (self, .InvalidParameter)
      | "phyTXRMARKEROffset" =>
        match value with
        | .phyTxRmarkerOffset v => self.set (.phyTxRmarkerOffset v)
        | _ => some (self, .InvalidParameter)
      | "phyRXRMARKEROffset" =>
        match value with
        | .phyRxRmarkerOffset v => self.set (.phyRxRmarkerOffset v)
        | _ => some (self, .InvalidParameter)
      | "phyRFRAMEProcessingTime" =>
        match value with
        | .phyRframeProcessingTime v => self.set (.phyRframeProcessingTime v)
        | _ => some (self, .InvalidParameter)
      | "phyCCADuration" =>
        match value with
        | .phyCcaDuration v => self.set (.phyCcaDuration v)
        | _ => some (self, .InvalidParameter)
      | _ => some (self, .UnsupportedAttribute))
  else
    none

/-- The writable half of the MAC PIB (`MacPibWrite` from `pib.rs`). -/
structure MacPibWrite where
  associated_pan_coord : Bool
  association_permit : Bool
  auto_request : Bool
  batt_life_ext : Bool
  beacon_payload : List Nat
  beacon_payload_length : Nat
  beacon_order : BeaconOrder
  bsn : SequenceNumber
  coord_extended_address : ExtendedAddress
  coord_short_address : ShortAddress
  dsn : SequenceNumber
  gts_permit : Bool
  max_be : Nat
  max_csma_backoffs : Nat
  max_frame_retries : Nat
  min_be : Nat
  pan_id : PanId
  promiscuous_mode : Bool
  response_wait_time : Nat
  rx_on_when_idle : Bool
  security_enabled : Bool
  short_address : ShortAddress
  transaction_persistence_time : Nat
  tx_control_active_duration : Nat
  tx_control_pause_duration : Nat
  tx_total_duration : Nat
deriving DecidableEq, Repr

/-- `MacPibWrite::set` from `pib.rs` lines 952-1040: stores the value,
validating the ranged attributes; `MacBattLifeExtPeriods` and
`MacMaxFrameTotalWaitTime` are accepted but ignored (the source computes them
on read).  Out-of-range values return `InvalidParameter` before any mutation.
The `unreachable!()` default branch is modelled as `none`. -/
def MacPibWrite.set (self : MacPibWrite) (value : PibValue) :
    Option (MacPibWrite × Status) :=
  match value with
  | .macAssociatedPanCoord v => some ({ self with associated_pan_coord := v }, .Success)
  | .macAssociationPermit v => some ({ self with association_permit := v }, .Success)
  | .macAutoRequest v => some ({ self with auto_request := v }, .Success)
  | .macBattLifeExt v => some ({ self with batt_life_ext := v }, .Success)
  | .macBattLifeExtPeriods v =>
    if 6 ≤ v ∧ v ≤ 41 then some (self, .Success)
    else some (self, .InvalidParameter)
  | .macBeaconPayload v => some ({ self with beacon_payload := v }, .Success)
  | .macBeaconPayloadLength v => some ({ self with beacon_payload_length := v }, .Success)
  | .macBeaconOrder v => some ({ self with beacon_order := v }, .Success)
  | .macBsn v => some ({ self with bsn := ⟨v⟩ }, .Success)
  | .macCoordExtendedAddress v => some ({ self with coord_extended_address := v }, .Success)
  | .macCoordShortAddress v => some ({ self with coord_short_address := v }, .Success)
  | .macDsn v => some ({ self with dsn := ⟨v⟩ }, .Success)
  | .macGtsPermit v => some ({ self with gts_permit := v }, .Success)
  | .macMaxBe v =>
    if 3 ≤ v ∧ v ≤ 8 then some ({ self with max_be := v }, .Success)
    else some (self, .InvalidParameter)
  | .macMaxCsmaBackoffs v =>
    if v ≤ 5 then some ({ self with max_csma_backoffs := v }, .Success)
    else some (self, .InvalidParameter)
  | .macMaxFrameTotalWaitTime _ => some (self, .Success)
  | .macMaxFrameRetries v =>
    if v ≤ 7 then some ({ self with max_frame_retries := v }, .Success)
    else some (self, .InvalidParameter)
  | .macMinBe v =>
    if v ≤ self.max_be then some ({ self with min_be := v }, .Success)
    else some (self, .InvalidParameter)
  | .macPanId v => some ({ self with pan_id := v }, .Success)
  | .macPromiscuousMode v => some ({ self with promiscuous_mode := v }, .Success)
  | .macResponseWaitTime v =>
    if 2 ≤ v ∧ v ≤ 64 then some ({ self with response_wait_time := v }, .Success)
    else some (self, .InvalidParameter)
  | .macRxOnWhenIdle v => some ({ self with rx_on_when_idle := v }, .Success)
  | .macSecurityEnabled v => some ({ self with security_enabled := v }, .Success)
  | .macShortAddress v => some ({ self with short_address := v }, .Success)
  | .macTransactionPersistenceTime v =>
    some ({ self with transaction_persistence_time := v }, .Success)
  | .macTxControlActiveDuration v =>
    if v ≤ 100000 then some ({ self with tx_control_active_duration := v }, .Success)
    else some (self, .InvalidParameter)
  | .macTxControlPauseDuration v =>
    if v = 2000 ∨ v = 10000 then some ({ self with tx_control_pause_duration := v }, .Success)
    else some (self, .InvalidParameter)
  | .macTxTotalDuration v => some ({ self with tx_total_duration := v }, .Success)
  | _ => none

/-- `MacPibWrite::try_set` from `pib.rs` lines 872-950.  The outer `Option`
is the `Option<Status>` of the source (`none` when the attribute is not a
`mac` attribute); the inner `Option` models a panic inside `set`. -/
def MacPibWrite.try_set (self : MacPibWrite) (attr_name : String) (value : PibValue) :
    Option (Option (MacPibWrite × Status)) :=
  if starts_with attr_name "mac" then
    some (match attr_name with
      | "macExtendedAddress" => some (self, .ReadOnly)
      | "macAckWaitDuration" => some (self, .ReadOnly)
      | "macBeaconTxTime" => some (self, .ReadOnly)
      | "macLIFSPeriod" => some (self, .ReadOnly)
      | "macSIFSPeriod" => some (self, .ReadOnly)
      | "macRangingSupported" => some (self, .ReadOnly)
      | "macSuperframeOrder" => some (self, .ReadOnly)
      | "macSyncSymbolOffset" => some (self, .ReadOnly)
      | "macTimestampSupported" => some (self, .ReadOnly)
      | "macAssociatedPANCoord" =>
        match value with
        | .macAssociatedPanCoord v => self.set (.macAssociatedPanCoord v)
        | _ => some (self, .InvalidParameter)
      | "macAssociationPermit" =>
        match value with
        | .macAssociationPermit v => self.set (.macAssociationPermit v)
        | _ => some (self, .InvalidParameter)
      | "macAutoRequest" =>
        match value with
        | .macAutoRequest v => self.set (.macAutoRequest v)
        | _ => some (self, .InvalidParameter)
      | "macBattLifeExt" =>
        match value with
        | .macBattLifeExt v => self.set (.macBattLifeExt v)
        | _ => some (self, .InvalidParameter)
      | "macBattLifeExtPeriods" =>
        match value with
        | .macBattLifeExtPeriods v => self.set (.macBattLifeExtPeriods v)
        | _ => some (self, .InvalidParameter)
      | "macBeaconPayload" =>
        match value with
        | .macBeaconPayload v => self.set (.macBeaconPayload v)
        | _ => some (self, .InvalidParameter)
      | "macBeaconPayloadLength" =>
        match value with
        | .macBeaconPayloadLength v => self.set (.macBeaconPayloadLength v)
        | _ => some (self, .InvalidParameter)
      | "macBeaconOrder" =>
        match value with
        | .macBeaconOrder v => self.set (.macBeaconOrder v)
        | _ => some (self, .InvalidParameter)
      | "macBSN" =>
        match value with
        | .macBsn v => self.set (.macBsn v)
        | _ => some (self, .InvalidParameter)
      | "macCoordExtendedAddress" =>
        match value with
        | .macCoordExtendedAddress v => self.set (.macCoordExtendedAddress v)
        | _ => some (self, .InvalidParameter)
      | "macCoordShortAddress" =>
        match value with
        | .macCoordShortAddress v => self.set (.macCoordShortAddress v)
        | _ => some (self, .InvalidParameter)
      | "macDSN" =>
        match value with
        | .macDsn v => self.set (.macDsn v)
        | _ => some (self, .InvalidParameter)
      | "macGTSPermit" =>
        match value with
        | .macGtsPermit v => self.set (.macGtsPermit v)
        | _ => some (self, .InvalidParameter)
      | "macMaxBE" =>
        match value with
        | .macMaxBe v => self.set (.macMaxBe v)
        | _ => some (self, .InvalidParameter)
      | "macMaxCSMABackoffs" =>
        match value with
        | .macMaxCsmaBackoffs v => self.set (.macMaxCsmaBackoffs v)
        | _ => some (self, .InvalidParameter)
      | "macMaxFrameTotalWaitTime" =>
        match value with
        | .macMaxFrameTotalWaitTime v => self.set (.macMaxFrameTotalWaitTime v)
        | _ => some (self, .InvalidParameter)
      | "macMaxFrameRetries" =>
        match value with
        | .macMaxFrameRetries v => self.set (.macMaxFrameRetries v)
        | _ => some (self, .InvalidParameter)
      | "macMinBE" =>
        match value with
        | .macMinBe v => self.set (.macMinBe v)
        | _ => some (self, .InvalidParameter)
      | "macPANId" =>
        match value with
        | .macPanId v => self.set (.macPanId v)
        | _ => some (self, .InvalidParameter)
      | "macPromiscuousMode" =>
        match value with
        | .macPromiscuousMode v => self.set (.macPromiscuousMode v)
        | _ => some (self, .InvalidParameter)
      | "macResponseWaitTime" =>
        match value with
        | .macResponseWaitTime v => self.set (.macResponseWaitTime v)
        | _ => some (self, .InvalidParameter)
      | "macRxOnWhenIdle" =>
        match value with
        | .macRxOnWhenIdle v => self.set (.macRxOnWhenIdle v)
        | _ => some (self, .InvalidParameter)
      | "macSecurityEnabled" =>
        match value with
        | .macSecurityEnabled v => self.set (.macSecurityEnabled v)
        | _ => some (self, .InvalidParameter)
      | "macShortAddress" =>
        match value with
        | .macShortAddress v => self.set (.macShortAddress v)
        | _ => some (self, .InvalidParameter)
      | "macTransactionPersistenceTime" =>
        match value with
        | .macTransactionPersistenceTime v => self.set (.macTransactionPersistenceTime v)
        | _ => some (self, .InvalidParameter)
      | "macTxControlActiveDuration" =>
        match value with
        | .macTxControlActiveDuration v => self.set (.macTxControlActiveDuration v)
        | _ => some (self, .InvalidParameter)
      | "macTxControlPauseDuration" =>
        match value with
        | .macTxControlPauseDuration v => self.set (.macTxControlPauseDuration v)
        | _ => some (self, .InvalidParameter)
      | "macTxTotalDuration" =>
        match value with
        | .macTxTotalDuration v => self.set (.macTxTotalDuration v)
        | _ => some (self, .InvalidParameter)
      | _ => some (self, .UnsupportedAttribute))
  else
    none

/-- `MacError` from `src/lr-wpan-rs/src/mac/mod.rs` (payloads dropped). -/
inductive MacError where
  | phyError
  | unsupportedAttribute
  | unknownChannelPage
deriving DecidableEq, Repr

/-- `From<MacError> for Status` from `mod.rs` lines 196-204. -/
def MacError.into_status : MacError → Status
  | .phyError => .PhyError
  | .unsupportedAttribute => .UnsupportedAttribute
  | .unknownChannelPage => .InvalidParameter

/-- `set_pib_value` from `src/src/mac/mlme_set.rs`: phy attributes first, then
mac attributes, then `UnsupportedAttribute`.  `phy_ok` is whether the
`update_phy_pib` transaction succeeded (its `Err` aborts with a PHY error).
The outer `Option` models a panic inside the `set` helpers. -/
def set_pib_value (phy_ok : Bool) (phy : PhyPibWrite) (mac : MacPibWrite)
    (attr_name : String) (value : PibValue) :
    Option (Except MacError (PhyPibWrite × MacPibWrite × Status)) :=
  if phy_ok = false then some (Except.error MacError.phyError)
  else
    match phy.try_set attr_name value with
    | some (some (phy2, st)) => some (Except.ok (phy2, mac, st))
    | some none => none
    | none =>
      match mac.try_set attr_name value with
      | some (some (mac2, st)) => some (Except.ok (phy, mac2, st))
      | some none => none
      | none => some (Except.error MacError.unsupportedAttribute)

/-- `process_set_request` from `mlme_set.rs`: the confirm status is the
returned status, with errors mapped through `MacError::into`. -/
def process_set_request_status (phy_ok : Bool) (phy : PhyPibWrite) (mac : MacPibWrite)
    (attr_name : String) (value : PibValue) :
    Option (PhyPibWrite × MacPibWrite × Status) :=
  match set_pib_value phy_ok phy mac attr_name value with
  | some (Except.ok r) => some r
  | some (Except.error e) => some (phy, mac, e.into_status)
  | none => none

/-- The full MAC PIB (`MacPib` from `pib.rs`): the writable half plus the
read-only attributes. -/
structure MacPib where
  pib_write : MacPibWrite
  extended_address : ExtendedAddress
  beacon_tx_time : Int
  lifs_period : Nat
  sifs_period : Nat
  ranging_supported : Bool
  superframe_order : SuperframeOrder
  sync_symbol_offset : Nat
  timestamp_supported : Bool
deriving DecidableEq, Repr

/-- `MacPib::batt_life_ext_periods` from `pib.rs` lines 661-670: term one is
3, term two is `CW0` of the current channel page, term three is the SHR
duration in unit backoff periods rounded to the nearest period
(`(shr + UNIT_BACKOFF_PERIOD / 2) / UNIT_BACKOFF_PERIOD`).  The `u32`
addition wraps and the final `as u8` cast truncates. -/
def MacPib.batt_life_ext_periods (_self : MacPib) (phy_pib : PhyPib) : Nat :=
  (3 + phy_pib.pib_write.current_page.cw0 +
    (phy_pib.shr_duration + UNIT_BACKOFF_PERIOD / 2) % u32_mod / UNIT_BACKOFF_PERIOD) % 256

/-- `PhyPib::unspecified_new` from `pib.rs` lines 93-147 (the `f32`
`symbols_per_octet` is kept as an opaque bit pattern). -/
def PhyPib.unspecified_new : PhyPib where
  pib_write :=
    { current_channel := 5
      tx_power_tolerance := .DB6
      tx_power := 0
      cca_mode := .Aloha
      current_page := .Uwb
      uwb_current_pulse_shape := .Mandatory
      uwb_cou_pulse := .CCh1
      uwb_cs_pulse := .No1
      uwb_lcp_weight1 := 0
      uwb_lcp_weight2 := 0
      uwb_lcp_weight3 := 0
      uwb_lcp_weight4 := 0
      uwb_lcp_delay2 := 0
      uwb_lcp_delay3 := 0
      uwb_lcp_delay4 := 0
      current_code := 0
      native_prf := .Prf16
      uwb_scan_bins_per_channel := 0
      uwb_inserted_preamble_interval := 0
      tx_rmarker_offset := 0
      rx_rmarker_offset := 0
      rframe_processing_time := 0
      cca_duration := 0 }
  channels_supported := [⟨.Uwb, [1, 2, 3, 4, 5, 7]⟩]
  max_frame_duration := 39 + 1175
  shr_duration := 39
  symbols_per_octet := ⟨0⟩
  preamble_symbol_length := 0
  uwb_data_rates_supported := [0, 1, 2]
  css_low_data_rate_supported := false
  uwb_cou_supported := false
  uwb_cs_supported := false
  uwb_lcp_supported := false
  ranging := true
  ranging_crystal_offset := false
  ranging_dps := true

/-- `MacPib::dummy_new` from `pib.rs` lines 505-544. -/
def MacPib.dummy_new : MacPib where
  pib_write :=
    { associated_pan_coord := false
      association_permit := false
      auto_request := false
      batt_life_ext := false
      beacon_payload := List.replicate MAX_BEACON_PAYLOAD_LENGTH 0
      beacon_payload_length := 0
      beacon_order := .onDemand
      bsn := ⟨0⟩
      coord_extended_address := ExtendedAddress.BROADCAST
      coord_short_address := ShortAddress.BROADCAST
      dsn := ⟨0⟩
      gts_permit := false
      max_be := 0
      max_csma_backoffs := 0
      max_frame_retries := 0
      min_be := 0
      pan_id := PanId.broadcast
      promiscuous_mode := false
      response_wait_time := 0
      rx_on_when_idle := false
      security_enabled := false
      short_address := ShortAddress.BROADCAST
      transaction_persistence_time := 0
      tx_control_active_duration := 0
      tx_control_pause_duration := 0
      tx_total_duration := 0 }
  extended_address := ExtendedAddress.BROADCAST
  beacon_tx_time := 0
  lifs_period := 0
  sifs_period := 0
  ranging_supported := false
  superframe_order := .inactive
  sync_symbol_offset := 0
  timestamp_supported := false

/-- A `PhyPib` whose SHR duration is one symbol, used as the C5 failing
input; all other fields are the `unspecified_new` values. -/
def phy_pib_shr1 : PhyPib :=
  { PhyPib.unspecified_new with shr_duration := 1 }

/-! ## Scan process, from `src/src/mac/mlme_scan.rs` -/

/-- Smallest value of a Rust `i64`, as an integer numeral. -/
def i64_min_int : Int := -9223372036854775808

/-- Largest value of a Rust `i64`, as an integer numeral. -/
def i64_max_int : Int := 9223372036854775807

/-- Modulus of a Rust `u64`, as an integer numeral. -/
def u64_mod_int : Int := 18446744073709551616

/-- `Mul<i64> for Duration` from `time.rs`: `checked_mul` with the panic on
`i64` overflow modelled as `none`. -/
def Duration.mul_i64 (self : Duration) (rhs : Int) : Option Duration :=
  if self.ticks * rhs < i64_min_int ∨ self.ticks * rhs > i64_max_int then none
  else some ⟨self.ticks * rhs⟩

/-- `Instant::checked_add_duration` from `time.rs`: `u64::checked_add_signed`,
`none` outside the `u64` range.  The `+=` on `Instant` unwraps this, so the
panic is also `none` here. -/
def Instant.checked_add_duration (self : Instant) (d : Duration) : Option Instant :=
  if (self.ticks : Int) + d.ticks < 0 ∨ (self.ticks : Int) + d.ticks ≥ u64_mod_int then none
  else some ⟨((self.ticks : Int) + d.ticks).toNat⟩

/-- `ScanAction` from `mlme_scan.rs`.  The channel, page, scan-type and
current-code payload of `StartScan` is not read by
`register_action_as_executed` and is dropped here. -/
inductive ScanAction where
  | startScan
  | finish
deriving DecidableEq, Repr

/-- The `ScanProcess` fields read by `register_action_as_executed`:
`scan_duration` is `responder.request.scan_duration` (a `u8`),
`unscanned_channels` is `results.unscanned_channels`; `beacons_found` and
`original_mac_pan_id` are carried along unchanged. -/
structure ScanProcess where
  scan_duration : Nat
  symbol_duration : Duration
  end_time : Instant
  unscanned_channels : List Nat
  skipped_channels : Nat
  beacons_found : Bool
  original_mac_pan_id : PanId
deriving DecidableEq, Repr

/-- The per-channel scan length in symbols computed by
`register_action_as_executed`:
`BASE_SUPERFRAME_DURATION * ((1 << scan_duration.min(14)) + 1)`. -/
def ScanProcess.scan_channel_symbols (self : ScanProcess) : Nat :=
  BASE_SUPERFRAME_DURATION * (2 ^ min self.scan_duration 14 + 1)

/-- `ScanProcess::register_action_as_executed` from `mlme_scan.rs` lines
211-228: advances `end_time` by `symbol_duration * scan_channel_symbols`
(`none` on arithmetic overflow, a panic in the source), and for `StartScan`
removes the channel at index `skipped_channels` from the unscanned list
(`Vec::remove` panics on an out-of-range index, modelled as `none`). -/
def ScanProcess.register_action_as_executed (self : ScanProcess) (action : ScanAction) :
    Option ScanProcess := do
  let dur ← self.symbol_duration.mul_i64 (self.scan_channel_symbols : Int)
  let new_end ← self.end_time.checked_add_duration dur
  match action with
  | .startScan =>
    if self.skipped_channels < self.unscanned_channels.length then
      some { self with
        end_time := new_end
        unscanned_channels := self.unscanned_channels.eraseIdx self.skipped_channels }
    else none
  | .finish => some { self with end_time := new_end }

/-- Iterated registration of `n` started channel scans. -/
def ScanProcess.register_scans (n : Nat) (p : ScanProcess) : Option ScanProcess :=
  match n with
  | 0 => some p
  | n + 1 => (p.register_action_as_executed .startScan).bind (ScanProcess.register_scans n)

/-- Concrete scan process used by the C6 witness. -/
def c6_process : ScanProcess where
  scan_duration := 0
  symbol_duration := ⟨1⟩
  end_time := ⟨0⟩
  unscanned_channels := [11, 12]
  skipped_channels := 0
  beacons_found := false
  original_mac_pan_id := PanId.broadcast

/-! ## Request dispatch and confirm delivery, from `src/lr-wpan-rs/src/mac/mod.rs`
`handle_request` (lines 106-143) and the MLME handler modules.

Each handler is embedded as a function from an environment record, whose
fields are the outcomes of the PHY and radio interactions the handler awaits,
to `Option (List Status)`: the list collects the confirms delivered to the
request responder over the whole procedure, including confirms delivered
later through stored callbacks (coordinator realignment, the association
data-request, scan completion); `none` models a panic (`todo!()`, `assert!`,
queue-capacity overflow), after which no confirm is delivered. -/

/-- The request kinds of `RequestValue` (`src/lr-wpan-rs/src/sap`). -/
inductive RequestKind where
  | associate
  | disassociate
  | get
  | gts
  | reset
  | rxEnable
  | scan
  | set
  | start
  | sync
  | poll
  | dps
  | sounding
  | calibrate
  | data
  | purge
deriving DecidableEq, Repr

/-- `ScanType` from `src/src/sap/scan.rs`. -/
inductive ScanType where
  | ed
  | active
  | passive
  | orphan
deriving DecidableEq, Repr

/-- Outcome of a `phy.send` call as the handlers interpret it:
`Err` from the PHY, `ChannelAccessFailure`, or `Success` followed by either a
response that deserializes to a matching acknowledgement or anything else
(no response, a non-ack frame, an undecodable frame). -/
inductive SendOutcome where
  | phyErr
  | channelAccessFailure
  | ackReceived
  | noAck
deriving DecidableEq, Repr

/-- Outcome of the receive loop of `perform_data_request` (`mod.rs` lines
696-757): a matching association response, a PHY wait or process error, or
the `macMaxFrameTotalWaitTime` timeout. -/
inductive ListenOutcome where
  | response
  | phyWaitErr
  | phyProcessErr
  | timeout
deriving DecidableEq, Repr

/-- Environment of `perform_data_request` (`mod.rs` lines 564-772) on the
association trigger. -/
structure DataReqEnv where
  send : SendOutcome
  frame_pending : Bool
  start_receive_ok : Bool
  listen : ListenOutcome
  stop_receive_ok : Bool
deriving Repr

/-- `perform_data_request` from `mod.rs` lines 564-772: the confirms run
through the association callback.  A send failure confirms
`ChannelAccessFailure`/`PhyError`; a missing acknowledgement hits
`todo!("No ack received for data request...")` (modelled `none`); an
acknowledgement without the frame-pending bit confirms `NoData`; otherwise
the listen window produces the association response, a PHY error, or
`NoData` on timeout, and a failing `stop_receive` replaces the outcome with
`PhyError`.  The successful association confirm is represented by
`Success`. -/
def perform_data_request_outcome (env : DataReqEnv) : Option (List Status) :=
  match env.send with
  | .channelAccessFailure => some [.ChannelAccessFailure]
  | .phyErr => some [.PhyError]
  | .noAck => none
  | .ackReceived =>
    if ¬env.frame_pending then some [.NoData]
    else if ¬env.start_receive_ok then some [.PhyError]
    else if ¬env.stop_receive_ok then some [.PhyError]
    else some [match env.listen with
      | .response => .Success
      | .phyWaitErr => .PhyError
      | .phyProcessErr => .PhyError
      | .timeout => .NoData]

/-- Environment of `process_associate_request`
(`src/lr-wpan-rs/src/mac/mlme_associate.rs` lines 24-179). -/
structure AssocEnv where
  already_associated : Bool
  phy_update_ok : Bool
  send_request : SendOutcome
  data_request_queue_full : Bool
  data_req : DataReqEnv
deriving Repr

/-- `process_associate_request` from `mlme_associate.rs`: an already
associated device confirms `AlreadyAssociated`; a failing PIB update confirms
`PhyError`; the association request send confirms
`ChannelAccessFailure`/`PhyError`/`NoAck` on failure; on a matching
acknowledgement the responder is stored in a scheduled data request
(`schedule_data_request` panics when its queue is full) whose later execution
delivers the confirm. -/
def process_associate_outcome (env : AssocEnv) : Option (List Status) :=
  if env.already_associated then some [.AlreadyAssociated]
  else if ¬env.phy_update_ok then some [.PhyError]
  else match env.send_request with
  | .phyErr => some [.PhyError]
  | .channelAccessFailure => some [.ChannelAccessFailure]
  | .noAck => some [.NoAck]
  | .ackReceived =>
    if env.data_request_queue_full then none
    else perform_data_request_outcome env.data_req

/-- Environment of `process_start_request`
(`src/lr-wpan-rs/src/mac/mlme_start.rs`). -/
structure StartEnv where
  superframe_order_valid : Bool
  short_address_is_broadcast : Bool
  coord_realignment : Bool
  broadcast_queue_full : Bool
  realignment_send_ok : Bool
  pan_coordinator : Bool
  start_time_zero : Bool
  beacon_order_on_demand : Bool
  phy_update_ok : Bool
  coordinator_beacon_tracked : Bool
  start_time_lt_superframe : Bool
deriving Repr

/-- `apply_changes` from `mlme_start.rs` lines 110-175: one confirm on every
path (`Success`, `PhyError` from `update_superframe_config`,
`SuperframeOverlap`, or `TrackingOff`). -/
def apply_changes_confirms (env : StartEnv) : List Status :=
  if env.pan_coordinator || env.start_time_zero || env.beacon_order_on_demand then
    if env.phy_update_ok then [.Success] else [.PhyError]
  else if ¬env.start_time_zero && env.coordinator_beacon_tracked then
    if env.start_time_lt_superframe then [.SuperframeOverlap]
    else if env.phy_update_ok then [.Success] else [.PhyError]
  else [.TrackingOff]

/-- `process_start_request` from `mlme_start.rs` lines 21-89 together with
`coord_realignment_sent_callback` (lines 91-108): the `assert!` on the
superframe order panics (`none`); a broadcast short address confirms
`NoShortAddress`; with `coord_realignment` the responder is stored in a
priority broadcast (panicking when the queue is full) whose send callback
applies the changes on success or confirms `ChannelAccessFailure`; otherwise
the changes apply immediately. -/
def process_start_outcome (env : StartEnv) : Option (List Status) :=
  if ¬env.superframe_order_valid then none
  else if env.short_address_is_broadcast then some [.NoShortAddress]
  else if env.coord_realignment then
    if env.broadcast_queue_full then none
    else if env.realignment_send_ok then some (apply_changes_confirms env)
    else some [.ChannelAccessFailure]
  else some (apply_changes_confirms env)

/-- Environment of `process_scan_request` and the scan lifecycle
(`src/src/mac/mlme_scan.rs`, `perform_scan_action` in `mod.rs`). -/
structure ScanEnv where
  time_ok : Bool
  scan_in_progress : Bool
  scan_type : ScanType
  channels_empty : Bool
  final_status : Status
deriving Repr

/-- `process_scan_request` from `mlme_scan.rs` lines 18-71 together with the
scan lifecycle: an unreadable clock confirms `PhyError`; a second concurrent
scan confirms `ScanInProgress`; otherwise the responder is stored in the
`ScanProcess` and the single confirm is delivered by
`abort_scan`/`finish_scan` with the final scan status — except that
executing a scan action of the unimplemented ED and orphan scan types hits
`todo!()` in `perform_scan_action` (modelled `none`; with an empty channel
list the first action is already `Finish`, so the scan still confirms). -/
def process_scan_outcome (env : ScanEnv) : Option (List Status) :=
  if ¬env.time_ok then some [.PhyError]
  else if env.scan_in_progress then some [.ScanInProgress]
  else if (env.scan_type = .ed ∨ env.scan_type = .orphan) ∧ ¬env.channels_empty then none
  else some [env.final_status]

/-- `process_get_request` from `src/lr-wpan-rs/src/mac/mlme_get.rs`:
one confirm on both paths (`Success` with the value when either PIB half
knows the attribute, `UnsupportedAttribute` otherwise; `lookup_ok` abstracts
the dictionary lookup). -/
def process_get_confirms (lookup_ok : Bool) : List Status :=
  if lookup_ok then [.Success] else [.UnsupportedAttribute]

/-- `process_reset_request` from `src/lr-wpan-rs/src/mac/mlme_reset.rs`:
one confirm on both paths; `phy.reset` is only called when
`set_default_pib` is set and its error maps to `PhyError`. -/
def process_reset_confirms (set_default_pib reset_ok : Bool) : List Status :=
  if set_default_pib && !reset_ok then [.PhyError] else [.Success]

/-- `process_set_request` from `src/src/mac/mlme_set.rs`, counting confirms:
the status path is the embedded `process_set_request_status`. -/
def process_set_confirms (phy_ok : Bool) (phy : PhyPibWrite) (mac : MacPibWrite)
    (attr_name : String) (value : PibValue) : Option (List Status) :=
  match process_set_request_status phy_ok phy mac attr_name value with
  | some (_, _, st) => some [st]
  | none => none

/-- The combined handler environment for `handle_request`. -/
structure HandlerEnv where
  set_phy_ok : Bool
  set_phy : PhyPibWrite
  set_mac : MacPibWrite
  set_attribute : String
  set_value : PibValue
  get_lookup_ok : Bool
  reset_set_default_pib : Bool
  reset_ok : Bool
  start : StartEnv
  assoc : AssocEnv
  scan : ScanEnv

/-- `handle_request` from `mod.rs` lines 106-143: the implemented request
kinds dispatch to their handler; `Disassociate`, `Gts`, `RxEnable`, `Sync`,
`Poll`, `Dps`, `Sounding`, `Calibrate`, `Data` and `Purge` are `todo!()`
(modelled `none`: a panic, no confirm). -/
def handle_request_outcome (kind : RequestKind) (env : HandlerEnv) :
    Option (List Status) :=
  match kind with
  | .associate => process_associate_outcome env.assoc
  | .disassociate => none
  | .get => some (process_get_confirms env.get_lookup_ok)
  | .gts => none
  | .reset => some (process_reset_confirms env.reset_set_default_pib env.reset_ok)
  | .rxEnable => none
  | .scan => process_scan_outcome env.scan
  | .set => process_set_confirms env.set_phy_ok env.set_phy env.set_mac
      env.set_attribute env.set_value
  | .start => process_start_outcome env.start
  | .sync => none
  | .poll => none
  | .dps => none
  | .sounding => none
  | .calibrate => none
  | .data => none
  | .purge => none

/-- Number of confirms delivered, `none` when the handler panicked. -/
def confirm_count (o : Option (List Status)) : Option Nat :=
  match o with
  | none => none
  | some l => some l.length

/-- The request kinds whose `handle_request` arm is `todo!()`. -/
def unimplemented_request_kinds : List RequestKind :=
  [.disassociate, .gts, .rxEnable, .sync, .poll, .dps, .sounding, .calibrate,
   .data, .purge]

/-- A concrete handler environment on the happy path, used by the C2
counterexample and witness. -/
def c2_default_env : HandlerEnv where
  set_phy_ok := true
  set_phy := PhyPib.unspecified_new.pib_write
  set_mac := MacPib.dummy_new.pib_write
  set_attribute := "macAutoRequest"
  set_value := .macAutoRequest true
  get_lookup_ok := true
  reset_set_default_pib := true
  reset_ok := true
  start :=
    { superframe_order_valid := true
      short_address_is_broadcast := false
      coord_realignment := false
      broadcast_queue_full := false
      realignment_send_ok := true
      pan_coordinator := true
      start_time_zero := true
      beacon_order_on_demand := false
      phy_update_ok := true
      coordinator_beacon_tracked := false
      start_time_lt_superframe := false }
  assoc :=
    { already_associated := false
      phy_update_ok := true
      send_request := .ackReceived
      data_request_queue_full := false
      data_req :=
        { send := .ackReceived
          frame_pending := true
          start_receive_ok := true
          listen := .response
          stop_receive_ok := true } }
  scan :=
    { time_ok := true
      scan_in_progress := false
      scan_type := .passive
      channels_empty := false
      final_status := .Success }

/-! ## Received-message processing and the pending-event deque, from
`src/lr-wpan-rs/src/mac/mod.rs` `process_message` (lines 1208-1327) and the
drain loop of `handle_radio_event` (lines 292-378). -/

/-- `DeviceAddress` from `lib.rs`. -/
inductive DeviceAddress where
  | short (s : ShortAddress)
  | extended (e : ExtendedAddress)
deriving DecidableEq, Repr

/-- `RadioEvent` from `mod.rs` lines 1041-1070 (the PHY processing context of
`PhyWaitDone` is dropped; the message it yields is a parameter of the drain
model below). -/
inductive RadioEvent where
  | error
  | beaconRequested
  | ownSuperframeStart (start_time : Instant)
  | ownSuperframeStartMissed (start_time : Instant)
  | ownSuperframeEnd
  | phyWaitDone
  | scanAction
  | sendScheduledIndependentDataRequest
  | sendAck (receive_time : Instant) (seq : Nat) (frame_pending : Bool)
  | sendPendingData (request_receive_time : Instant) (device_address : DeviceAddress)
deriving DecidableEq, Repr

/-- The received frame content cases `process_message` distinguishes. -/
inductive MsgContent where
  | beacon
  | commandBeaconRequest
  | commandDataRequest
  | commandAssociationRequest
  | other
deriving DecidableEq, Repr

/-- The fields of a deserialized frame that `process_message` reads. -/
structure MsgFrame where
  content : MsgContent
  ack_request : Bool
  seq : Nat
  source : Option DeviceAddress
deriving DecidableEq, Repr

/-- The engine state `process_message` consults: whether a scan is active,
whether this device is the PAN coordinator with an on-demand beacon order,
and whether the scheduler holds pending data for the data-request source. -/
structure MsgState where
  scan_active : Bool
  is_pan_coordinator : Bool
  beacon_order_on_demand : Bool
  has_pending_data : Bool
deriving DecidableEq, Repr

/-- `filter_frame` from `mod.rs` lines 1329-1336: the 5.1.6.2 filtering is a
TODO in the source and accepts every frame. -/
def filter_frame (_frame : MsgFrame) : Bool := true

/-- `ArrayDeque::push_back` on the capacity-4 pending-event deque; the
`unwrap` panic when full is `none`. -/
def deque_push_back (dq : List RadioEvent) (e : RadioEvent) : Option (List RadioEvent) :=
  if dq.length < 4 then some (dq ++ [e]) else none

/-- `ArrayDeque::push_front` on the capacity-4 pending-event deque; the
`unwrap` panic when full is `none`. -/
def deque_push_front (dq : List RadioEvent) (e : RadioEvent) : Option (List RadioEvent) :=
  if dq.length < 4 then some (e :: dq) else none

/-- `process_message` from `mod.rs` lines 1208-1327, as its effect on the
pending-event deque: frames failing the filter, non-beacons during a scan,
ignored beacon requests, and beacons consumed by a scan leave the deque
alone; an accepted `BeaconRequest` pushes `BeaconRequested` to the back and
returns (no acknowledgement handling); a `DataRequest` with a source address
pushes `SendPendingData` to the back and computes the frame-pending flag;
finally, when the frame requests an acknowledgement, `SendAck` is pushed to
the front. -/
def process_message (timestamp : Instant) (frame : MsgFrame) (st : MsgState)
    (next_events : List RadioEvent) : Option (List RadioEvent) :=
  if filter_frame frame = false then some next_events
  else if st.scan_active ∧ frame.content ≠ .beacon then some next_events
  else if frame.content = .commandBeaconRequest then
    if st.is_pan_coordinator ∧ st.beacon_order_on_demand then
      deque_push_back next_events .beaconRequested
    else some next_events
  else if st.scan_active then some next_events
  else do
    let pushed : Option (List RadioEvent) × Bool :=
      match frame.content, frame.source with
      | .commandDataRequest, some src =>
        (deque_push_back next_events (.sendPendingData timestamp src),
          st.has_pending_data)
      | _, _ => (some next_events, false)
    let events1 ← pushed.1
    if frame.ack_request then
      deque_push_front events1 (.sendAck timestamp frame.seq pushed.2)
    else
      some events1

/-- The drain loop of `handle_radio_event` (`mod.rs` lines 292-378),
returning the order in which pending events are handled: events are popped
from the front; `Error` is `todo!()` (a panic, `none`); `PhyWaitDone`
processes the received frame through `process_message`, which may push
events; every other handler pushes nothing.  `fuel` bounds the iteration
count. -/
def handle_radio_event_order (fuel : Nat) (timestamp : Instant) (frame : MsgFrame)
    (st : MsgState) (dq : List RadioEvent) : Option (List RadioEvent) :=
  match fuel, dq with
  | _, [] => some []
  | 0, _ :: _ => none
  | f + 1, e :: rest =>
    let rest' : Option (List RadioEvent) :=
      match e with
      | .error => none
      | .phyWaitDone => process_message timestamp frame st rest
      | _ => some rest
    match rest' with
    | none => none
    | some r =>
      match handle_radio_event_order f timestamp frame st r with
      | none => none
      | some tail => some (e :: tail)

/-- Whether an event is a `SendAck`. -/
def RadioEvent.is_send_ack : RadioEvent → Bool
  | .sendAck _ _ _ => true
  | _ => false

/-- The C7 failing input: a `BeaconRequest` command frame with the
acknowledgement-request flag set. -/
def c7_frame : MsgFrame := ⟨.commandBeaconRequest, true, 1, some (.short ⟨2⟩)⟩

/-- The C7 failing state: a PAN coordinator with on-demand beacon order and
no active scan, so the beacon request is accepted. -/
def c7_state : MsgState := ⟨false, true, true, false⟩

/-- A data-request frame with the acknowledgement-request flag set, used by
the C7 witness. -/
def c7_witness_frame : MsgFrame := ⟨.commandDataRequest, true, 7, some (.extended ⟨5⟩)⟩

/-- The engine state used by the C7 witness. -/
def c7_witness_state : MsgState := ⟨false, false, false, true⟩

/-! ## Beacon wire codec, from `src/src/wire/beacon.rs`.

Bytes are `Nat` values below 256.  A writer produces the byte list appended
to the buffer (the source `TryWrite` into a sufficiently large buffer); a
reader takes the byte list, returning the parsed value and the remaining
bytes, or `none` on a `check_len` failure (the consumed length of the source
is the difference of the list lengths). -/

/-- Little-endian encoding of `v` on `k` bytes (the `byte` crate `LE`
encoding used for `ShortAddress` (2 bytes) and `ExtendedAddress` (8 bytes),
pinned by the test vectors in `beacon.rs`). -/
def write_le (k v : Nat) : List Nat :=
  match k with
  | 0 => []
  | k + 1 => v % 256 :: write_le k (v / 256)

/-- Little-endian decoding of `k` bytes. -/
def read_le (k : Nat) (bytes : List Nat) : Option (Nat × List Nat) :=
  match k with
  | 0 => some (0, bytes)
  | k + 1 =>
    match bytes with
    | [] => none
    | b :: rest =>
      match read_le k rest with
      | none => none
      | some (v, r) => some (b + 256 * v, r)

/-- `SuperframeSpecification` from `beacon.rs` lines 79-96. -/
structure SuperframeSpecification where
  beacon_order : BeaconOrder
  superframe_order : SuperframeOrder
  final_cap_slot : Nat
  battery_life_extension : Bool
  pan_coordinator : Bool
  association_permit : Bool
deriving DecidableEq, Repr

/-- `TryWrite for SuperframeSpecification` (`beacon.rs` lines 128-152):
byte 0 is `(bo & 0x0f) | (so << 4)` (`u8` shift, wrapping), byte 1 packs the
final CAP slot with the BLE (bit 4), PAN-coordinator (bit 6) and
association-permit (bit 7) flags. -/
def SuperframeSpecification.try_write (self : SuperframeSpecification) : List Nat :=
  [(self.beacon_order.toU8 &&& 0x0f) ||| ((self.superframe_order.toU8 <<< 4) % 256),
   (self.final_cap_slot &&& 0x0f) |||
     (if self.battery_life_extension then 0x10 else 0) |||
     (if self.pan_coordinator then 0x40 else 0) |||
     (if self.association_permit then 0x80 else 0)]

/-- `TryRead for SuperframeSpecification` (`beacon.rs` lines 102-126). -/
def SuperframeSpecification.try_read (bytes : List Nat) :
    Option (SuperframeSpecification × List Nat) :=
  match bytes with
  | b0 :: b1 :: rest =>
    some
      ({ beacon_order := BeaconOrder.fromU8 (b0 &&& 0x0f)
         superframe_order := SuperframeOrder.fromU8 ((b0 >>> 4) &&& 0x0f)
         final_cap_slot := b1 &&& 0x0f
         battery_life_extension := b1 &&& 0x10 == 0x10
         pan_coordinator := b1 &&& 0x40 == 0x40
         association_permit := b1 &&& 0x80 == 0x80 }, rest)
  | _ => none

/-- `Direction` from `beacon.rs`. -/
inductive Direction where
  | Receive
  | Transmit
deriving DecidableEq, Repr

/-- `GuaranteedTimeSlotDescriptor` from `beacon.rs` lines 164-176. -/
structure GuaranteedTimeSlotDescriptor where
  short_address : ShortAddress
  starting_slot : Nat
  length : Nat
  direction : Direction
deriving DecidableEq, Repr

/-- `TryWrite for GuaranteedTimeSlotDescriptor` (`beacon.rs` lines 217-224):
the short address in little endian, then `starting_slot | (length << 4)`
(`u8` shift, wrapping; the direction goes into the separate mask byte of the
GTS block). -/
def GuaranteedTimeSlotDescriptor.try_write (self : GuaranteedTimeSlotDescriptor) :
    List Nat :=
  write_le 2 self.short_address.val ++
    [self.starting_slot ||| ((self.length <<< 4) % 256)]

/-- `TryRead for GuaranteedTimeSlotDescriptor` (`beacon.rs` lines 196-215):
the direction is initialized to `Receive` and set by the caller. -/
def GuaranteedTimeSlotDescriptor.try_read (bytes : List Nat) :
    Option (GuaranteedTimeSlotDescriptor × List Nat) :=
  match read_le 2 bytes with
  | none => none
  | some (sa, rest) =>
    match rest with
    | [] => none
    | b :: rest2 =>
      some ({ short_address := ⟨sa⟩, starting_slot := b &&& 0x0f, length := b >>> 4,
              direction := .Receive }, rest2)

/-- `GuaranteedTimeSlotInformation` from `beacon.rs` lines 240-248
(a `heapless::Vec` of capacity 7). -/
structure GuaranteedTimeSlotInformation where
  permit : Bool
  slots : List GuaranteedTimeSlotDescriptor
deriving DecidableEq, Repr

/-- The direction-mask loop of `TryWrite for GuaranteedTimeSlotInformation`
(`beacon.rs` lines 281-291): `dir` starts at 1 and doubles (`u8` shift,
wrapping) while transmit slots set their bit in the accumulator. -/
def gts_direction_mask : List GuaranteedTimeSlotDescriptor → Nat → Nat → Nat
  | [], _, acc => acc
  | s :: rest, dir, acc =>
    gts_direction_mask rest ((dir <<< 1) % 256)
      (if s.direction = .Transmit then acc ||| dir else acc)

/-- Recursive characterization of the direction mask (bit `i` set when slot
`i` is a transmit slot), used to reason about `gts_direction_mask`. -/
def gts_mask0 : List GuaranteedTimeSlotDescriptor → Nat
  | [] => 0
  | s :: rest => (if s.direction = .Transmit then 1 else 0) + 2 * gts_mask0 rest

/-- `TryWrite for GuaranteedTimeSlotInformation` (`beacon.rs` lines
271-301): a header byte packing the slot count (bits 0-2) and the permit
flag (bit 7); when slots are present, the direction mask byte followed by
the slot descriptors. -/
def GuaranteedTimeSlotInformation.try_write (self : GuaranteedTimeSlotInformation) :
    List Nat :=
  ((self.slots.length % 256 &&& 0x07) ||| (if self.permit then 0x80 else 0)) ::
    (if self.slots.isEmpty then []
     else gts_direction_mask self.slots 1 0 ::
       (self.slots.map GuaranteedTimeSlotDescriptor.try_write).flatten)

/-- The slot-reading loop of `TryRead for GuaranteedTimeSlotInformation`
(`beacon.rs` lines 314-327): each slot takes its direction from the next
mask bit. -/
def read_gts_slots : Nat → Nat → List Nat →
    Option (List GuaranteedTimeSlotDescriptor × List Nat)
  | 0, _, bytes => some ([], bytes)
  | n + 1, mask, bytes =>
    match GuaranteedTimeSlotDescriptor.try_read bytes with
    | none => none
    | some (slot, rest) =>
      match read_gts_slots n (mask >>> 1) rest with
      | none => none
      | some (slots, rest2) =>
        some ({ slot with
          direction := if mask &&& 0b1 = 0b1 then .Transmit else .Receive } :: slots,
          rest2)

/-- `TryRead for GuaranteedTimeSlotInformation` (`beacon.rs` lines 303-330).
When slots are present the source checks `2 + 3 * slot_count` REMAINING
bytes after the header byte (one more than the `1 + 3 * slot_count` it
consumes). -/
def GuaranteedTimeSlotInformation.try_read (bytes : List Nat) :
    Option (GuaranteedTimeSlotInformation × List Nat) :=
  match bytes with
  | [] => none
  | b :: rest =>
    let slot_count := b &&& 0x07
    let permit := b &&& 0x80 == 0x80
    if slot_count = 0 then some (⟨permit, []⟩, rest)
    else if rest.length < 2 + 3 * slot_count then none
    else
      match rest with
      | [] => none
      | mask :: rest2 =>
        match read_gts_slots slot_count mask rest2 with
        | none => none
        | some (slots, rest3) => some (⟨permit, slots⟩, rest3)

/-- `PendingAddress` from `beacon.rs` lines 354-361 (two `heapless::Vec`s of
capacity 7). -/
structure PendingAddress where
  short_addresses : List ShortAddress
  extended_addresses : List ExtendedAddress
deriving DecidableEq, Repr

/-- `TryWrite for PendingAddress` (`beacon.rs` lines 415-437): one header
byte packing the short count (bits 0-2) and the extended count (bits 4-6),
then the short and extended addresses in little endian. -/
def PendingAddress.try_write (self : PendingAddress) : List Nat :=
  ((((self.extended_addresses.length % 256) <<< 4) &&& 0x70) |||
      ((self.short_addresses.length % 256) &&& 0x07)) ::
    (self.short_addresses.map (fun a => write_le 2 a.val)).flatten ++
    (self.extended_addresses.map (fun a => write_le 8 a.val)).flatten

/-- The short-address reading loop of `TryRead for PendingAddress`. -/
def read_short_addresses : Nat → List Nat → Option (List ShortAddress × List Nat)
  | 0, bytes => some ([], bytes)
  | n + 1, bytes =>
    match read_le 2 bytes with
    | none => none
    | some (v, rest) =>
      match read_short_addresses n rest with
      | none => none
      | some (l, rest2) => some (⟨v⟩ :: l, rest2)

/-- The extended-address reading loop of `TryRead for PendingAddress`. -/
def read_extended_addresses : Nat → List Nat → Option (List ExtendedAddress × List Nat)
  | 0, bytes => some ([], bytes)
  | n + 1, bytes =>
    match read_le 8 bytes with
    | none => none
    | some (v, rest) =>
      match read_extended_addresses n rest with
      | none => none
      | some (l, rest2) => some (⟨v⟩ :: l, rest2)

/-- `TryRead for PendingAddress` (`beacon.rs` lines 382-413). -/
def PendingAddress.try_read (bytes : List Nat) : Option (PendingAddress × List Nat) :=
  match bytes with
  | [] => none
  | b :: rest =>
    let sl := b &&& 0x07
    let el := (b &&& 0x70) >>> 4
    if rest.length < sl * 2 + el * 8 then none
    else
      match read_short_addresses sl rest with
      | none => none
      | some (shorts, rest2) =>
        match read_extended_addresses el rest2 with
        | none => none
        | some (exts, rest3) => some (⟨shorts, exts⟩, rest3)

/-- `Beacon` from `beacon.rs` lines 439-449. -/
structure Beacon where
  superframe_spec : SuperframeSpecification
  guaranteed_time_slot_info : GuaranteedTimeSlotInformation
  pending_address : PendingAddress
deriving DecidableEq, Repr

/-- `TryWrite for Beacon` (`beacon.rs` lines 465-473). -/
def Beacon.try_write (self : Beacon) : List Nat :=
  self.superframe_spec.try_write ++
    self.guaranteed_time_slot_info.try_write ++
    self.pending_address.try_write

/-- `TryRead for Beacon` (`beacon.rs` lines 451-463). -/
def Beacon.try_read (bytes : List Nat) : Option (Beacon × List Nat) :=
  match SuperframeSpecification.try_read bytes with
  | none => none
  | some (sfs, rest1) =>
    match GuaranteedTimeSlotInformation.try_read rest1 with
    | none => none
    | some (gts, rest2) =>
      match PendingAddress.try_read rest2 with
      | none => none
      | some (pa, rest3) => some (⟨sfs, gts, pa⟩, rest3)

/-! ## Frame layer.

The frame header codec of the repository (the `wire` module files other than
`beacon.rs`) is not among the available sources; the definitions below are
modelled from the specification (3 Data model / 4.1 Wire codec: frame type,
flags, version, sequence number, optional addresses, payload to the end of
the buffer with the `FooterMode::None` footer omitted), with the
standards-dictated frame-control-field bit layout the specification appeals
to.  Frame contents are restricted to beacon, data and acknowledgement
frames: the MAC command codec is likewise outside the available sources and
its field encodings are not given by the specification. -/

/-- Modelled from the spec: the frame types of the embedded contents
(`FrameType` in the missing `wire` module; the command type is outside the
model). -/
inductive FrameType where
  | beacon
  | data
  | acknowledgement
deriving DecidableEq, Repr

/-- Modelled from the spec: frame version (5.2.1.1: 2003, 2006, or the
current standard). -/
inductive FrameVersion where
  | ieee802154_2003
  | ieee802154_2006
  | ieee802154
deriving DecidableEq, Repr

/-- Modelled from the spec: `Address` of the missing `wire` module, a PAN id
with a short or extended address. -/
inductive Address where
  | short (pan : PanId) (addr : ShortAddress)
  | extended (pan : PanId) (addr : ExtendedAddress)
deriving DecidableEq, Repr

/-- Modelled from the spec: the frame `Header` of the missing `wire` module.
The auxiliary security header slot is outside the model (security is stubbed
in the source). -/
structure Header where
  frame_type : FrameType
  frame_pending : Bool
  ack_request : Bool
  pan_id_compress : Bool
  seq_no_suppress : Bool
  ie_present : Bool
  version : FrameVersion
  seq : Nat
  destination : Option Address
  source : Option Address
deriving DecidableEq, Repr

/-- Frame-type bits of the frame control field (802.15.4 table:
beacon 0, data 1, acknowledgement 2). -/
def FrameType.bits : FrameType → Nat
  | .beacon => 0
  | .data => 1
  | .acknowledgement => 2

/-- Frame-version bits (2003 = 0, 2006 = 1, current = 2). -/
def FrameVersion.bits : FrameVersion → Nat
  | .ieee802154_2003 => 0
  | .ieee802154_2006 => 1
  | .ieee802154 => 2

/-- Addressing-mode bits of an optional address (none 0, short 2,
extended 3). -/
def addressing_mode : Option Address → Nat
  | none => 0
  | some (.short _ _) => 2
  | some (.extended _ _) => 3

/-- The address bytes: PAN id (little endian, unless elided) followed by the
short (2 bytes) or extended (8 bytes) address, little endian. -/
def write_address (elide_pan : Bool) : Address → List Nat
  | .short pan addr =>
    (if elide_pan then [] else write_le 2 pan.val) ++ write_le 2 addr.val
  | .extended pan addr =>
    (if elide_pan then [] else write_le 2 pan.val) ++ write_le 8 addr.val

/-- Modelled from the spec: header serialization.  Byte 0 packs the frame
type (bits 0-2), frame-pending (bit 4), ack-request (bit 5) and
PAN-id-compression (bit 6) flags; byte 1 packs sequence-number suppression
(bit 0), IE-present (bit 1), the destination addressing mode (bits 2-3), the
frame version (bits 4-5) and the source addressing mode (bits 6-7); then the
sequence number (unless suppressed), the destination address, and the source
address whose PAN id is elided under PAN-id compression. -/
def Header.try_write (self : Header) : List Nat :=
  [(self.frame_type.bits) |||
     (if self.frame_pending then 0x10 else 0) |||
     (if self.ack_request then 0x20 else 0) |||
     (if self.pan_id_compress then 0x40 else 0),
   (if self.seq_no_suppress then 0x01 else 0) |||
     (if self.ie_present then 0x02 else 0) |||
     (addressing_mode self.destination <<< 2) |||
     (self.version.bits <<< 4) |||
     (addressing_mode self.source <<< 6)] ++
  (if self.seq_no_suppress then [] else [self.seq % 256]) ++
  (match self.destination with
   | none => []
   | some a => write_address false a) ++
  (match self.source with
   | none => []
   | some a => write_address self.pan_id_compress a)

/-- Reads the frame type back from its bits. -/
def read_frame_type (bits : Nat) : Option FrameType :=
  match bits with
  | 0 => some .beacon
  | 1 => some .data
  | 2 => some .acknowledgement
  | _ => none

/-- Reads the frame version back from its bits. -/
def read_frame_version (bits : Nat) : Option FrameVersion :=
  match bits with
  | 0 => some .ieee802154_2003
  | 1 => some .ieee802154_2006
  | 2 => some .ieee802154
  | _ => none

/-- Reads an optional address from its mode bits; under an elided PAN id the
supplied `pan` is used. -/
def read_address (mode : Nat) (elide_pan : Bool) (pan : PanId) (bytes : List Nat) :
    Option (Option Address × List Nat) :=
  match mode with
  | 0 => some (none, bytes)
  | 2 =>
    match (if elide_pan then some (pan.val, bytes) else read_le 2 bytes) with
    | none => none
    | some (p, rest) =>
      match read_le 2 rest with
      | none => none
      | some (a, rest2) => some (some (.short ⟨p⟩ ⟨a⟩), rest2)
  | 3 =>
    match (if elide_pan then some (pan.val, bytes) else read_le 2 bytes) with
    | none => none
    | some (p, rest) =>
      match read_le 8 rest with
      | none => none
      | some (a, rest2) => some (some (.extended ⟨p⟩ ⟨a⟩), rest2)
  | _ => none

/-- The PAN id of an address. -/
def Address.pan_id : Address → PanId
  | .short pan _ => pan
  | .extended pan _ => pan

/-- Modelled from the spec: header parsing, inverse of `Header.try_write`.
Under PAN-id compression the source PAN id is recovered from the
destination; a compressed source without a destination is rejected. -/
def Header.try_read (bytes : List Nat) : Option (Header × List Nat) :=
  match bytes with
  | b0 :: b1 :: rest =>
    match read_frame_type (b0 &&& 0x07) with
    | none => none
    | some ft =>
      let frame_pending := b0 &&& 0x10 == 0x10
      let ack_request := b0 &&& 0x20 == 0x20
      let pan_id_compress := b0 &&& 0x40 == 0x40
      let seq_no_suppress := b1 &&& 0x01 == 0x01
      let ie_present := b1 &&& 0x02 == 0x02
      match read_frame_version ((b1 >>> 4) &&& 0x03) with
      | none => none
      | some ver =>
        let (seq, rest1) :=
          if seq_no_suppress then ((0, rest) : Nat × List Nat)
          else match rest with
            | [] => (0, [])
            | s :: r => (s, r)
        if seq_no_suppress = false ∧ rest = [] then none
        else
          match read_address ((b1 >>> 2) &&& 0x03) false ⟨0⟩ rest1 with
          | none => none
          | some (dest, rest2) =>
            if pan_id_compress ∧ dest.isNone then none
            else
              match read_address ((b1 >>> 6) &&& 0x03) pan_id_compress
                  (match dest with | some d => d.pan_id | none => ⟨0⟩) rest2 with
              | none => none
              | some (src, rest3) =>
                some ({ frame_type := ft, frame_pending := frame_pending,
                        ack_request := ack_request, pan_id_compress := pan_id_compress,
                        seq_no_suppress := seq_no_suppress, ie_present := ie_present,
                        version := ver, seq := seq, destination := dest,
                        source := src }, rest3)
  | _ => none

/-- The frame contents in the model (`FrameContent` restricted to the
codecs among the sources; data and acknowledgement contents serialize to
nothing). -/
inductive FrameContent where
  | beacon (b : Beacon)
  | data
  | acknowledgement
deriving DecidableEq, Repr

/-- The frame type a content belongs to. -/
def FrameContent.frame_type : FrameContent → FrameType
  | .beacon _ => .beacon
  | .data => .data
  | .acknowledgement => .acknowledgement

/-- A frame: header, content and payload (the 2-byte footer field of the
source `Frame` is not serialized under `FooterMode::None` and is omitted). -/
structure Frame where
  header : Header
  content : FrameContent
  payload : List Nat
deriving DecidableEq, Repr

/-- Frame serialization: header, content, payload. -/
def Frame.try_write (self : Frame) : List Nat :=
  self.header.try_write ++
    (match self.content with
     | .beacon b => b.try_write
     | .data => []
     | .acknowledgement => []) ++
    self.payload

/-- Frame parsing: the header determines the content; the payload is the
remainder of the buffer, so parsing consumes exactly the bytes present. -/
def Frame.try_read (bytes : List Nat) : Option Frame :=
  match Header.try_read bytes with
  | none => none
  | some (h, rest) =>
    match h.frame_type with
    | .beacon =>
      match Beacon.try_read rest with
      | none => none
      | some (b, rest2) => some ⟨h, .beacon b, rest2⟩
    | .data => some ⟨h, .data, rest⟩
    | .acknowledgement => some ⟨h, .acknowledgement, rest⟩

/-! ## Validity predicates for the round-trip claim (C3). -/

/-- Well-formedness of an address: PAN id and address value in range. -/
def Address.wf : Address → Bool
  | .short pan addr => pan.val < 2 ^ 16 && addr.val < 2 ^ 16
  | .extended pan addr => pan.val < 2 ^ 16 && addr.val < 2 ^ 64

/-- Well-formedness of a header: sequence number a byte (zero when
suppressed, since a suppressed sequence number is not recovered by parsing),
in-range addresses, and PAN-id compression only with both addresses present
and agreeing on the PAN id. -/
def Header.wf (h : Header) : Bool :=
  h.seq < 256 &&
  (!h.seq_no_suppress || h.seq == 0) &&
  (match h.destination with | none => true | some a => a.wf) &&
  (match h.source with | none => true | some a => a.wf) &&
  (!h.pan_id_compress ||
    (match h.destination, h.source with
     | some d, some s => d.pan_id == s.pan_id
     | _, _ => false))

/-- The validity conditions on the beacon fields the claim lists, verbatim:
at most 7 GTS descriptors, at most 7 short and 7 extended pending addresses,
starting slot and final CAP slot below 16 — together with the representation
bounds of the stored integers (addresses in range, orders in their
representable ranges). -/
def Beacon.claim_valid (b : Beacon) : Bool :=
  (match b.superframe_spec.beacon_order with
   | .beaconOrder v => v ≤ 14
   | .onDemand => true) &&
  (match b.superframe_spec.superframe_order with
   | .superframeOrder v => v ≤ 14
   | .inactive => true) &&
  b.superframe_spec.final_cap_slot < 16 &&
  b.guaranteed_time_slot_info.slots.length ≤ 7 &&
  b.guaranteed_time_slot_info.slots.all
    (fun s => s.short_address.val < 2 ^ 16 && s.starting_slot < 16) &&
  b.pending_address.short_addresses.length ≤ 7 &&
  b.pending_address.short_addresses.all (fun a => a.val < 2 ^ 16) &&
  b.pending_address.extended_addresses.length ≤ 7 &&
  b.pending_address.extended_addresses.all (fun a => a.val < 2 ^ 64)

/-- Full well-formedness of the beacon fields: the claimed conditions plus
the bound the claim omits — each GTS descriptor length below 16. -/
def Beacon.wf (b : Beacon) : Bool :=
  b.claim_valid &&
  b.guaranteed_time_slot_info.slots.all (fun s => s.length < 16)

/-- The validity conditions the claim states for a frame: a valid header,
payload at most `aMaxMACPayloadSize`, and the listed beacon field ranges. -/
def Frame.claim_valid (f : Frame) : Bool :=
  f.header.wf &&
  f.content.frame_type = f.header.frame_type &&
  f.payload.length ≤ MAX_MAC_PAYLOAD_SIZE &&
  f.payload.all (fun b => b < 256) &&
  (match f.content with
   | .beacon b => b.claim_valid
   | _ => true)

/-- Full well-formedness of a frame: the claimed conditions plus the GTS
descriptor length bound. -/
def Frame.wf (f : Frame) : Bool :=
  f.header.wf &&
  f.content.frame_type = f.header.frame_type &&
  f.payload.length ≤ MAX_MAC_PAYLOAD_SIZE &&
  f.payload.all (fun b => b < 256) &&
  (match f.content with
   | .beacon b => b.wf
   | _ => true)

/-- The C3 failing input: a beacon frame, valid under the conditions the
claim lists, whose single GTS descriptor has length 16. -/
def c3_bad_frame : Frame where
  header :=
    { frame_type := .beacon
      frame_pending := false
      ack_request := false
      pan_id_compress := false
      seq_no_suppress := false
      ie_present := false
      version := .ieee802154_2003
      seq := 1
      destination := none
      source := some (.short ⟨0x1234⟩ ⟨0x0001⟩) }
  content := .beacon
    { superframe_spec :=
        { beacon_order := .beaconOrder 14
          superframe_order := .superframeOrder 14
          final_cap_slot := 15
          battery_life_extension := false
          pan_coordinator := true
          association_permit := true }
      guaranteed_time_slot_info :=
        { permit := false
          slots := [{ short_address := ⟨3⟩, starting_slot := 0, length := 16,
                      direction := .Receive }] }
      pending_address := ⟨[], []⟩ }
  payload := []

/-- A well-formed beacon frame exercising every codec component (two GTS
slots with both directions, pending short and extended addresses, PAN-id
compression, payload), used by the C3 witness. -/
def c3_good_frame : Frame where
  header :=
    { frame_type := .beacon
      frame_pending := true
      ack_request := false
      pan_id_compress := true
      seq_no_suppress := false
      ie_present := true
      version := .ieee802154_2006
      seq := 200
      destination := some (.extended ⟨0x4321⟩ ⟨0x1122334455667788⟩)
      source := some (.short ⟨0x4321⟩ ⟨0x0007⟩) }
  content := .beacon
    { superframe_spec :=
        { beacon_order := .beaconOrder 2
          superframe_order := .superframeOrder 1
          final_cap_slot := 3
          battery_life_extension := false
          pan_coordinator := true
          association_permit := true }
      guaranteed_time_slot_info :=
        { permit := true
          slots := [{ short_address := ⟨0x1234⟩, starting_slot := 1, length := 1,
                      direction := .Transmit },
                    { short_address := ⟨0x5678⟩, starting_slot := 4, length := 1,
                      direction := .Receive }] }
      pending_address := ⟨[⟨0x1234⟩, ⟨0x5678⟩], [⟨0x0123456789abcdef⟩]⟩ }
  payload := [1, 2, 3]

/-- The MAC attributes the `ReadOnly` arms of `MacPibWrite::try_set` cover. -/
def mac_read_only_attributes : List String :=
  ["macExtendedAddress", "macAckWaitDuration", "macBeaconTxTime", "macLIFSPeriod",
   "macSIFSPeriod", "macRangingSupported", "macSuperframeOrder", "macSyncSymbolOffset",
   "macTimestampSupported"]

/-- The PHY attributes the `ReadOnly` arms of `PhyPibWrite::try_set` cover. -/
def phy_read_only_attributes : List String :=
  ["phyChannelsSupported", "phyMaxFrameDuration", "phySHRDuration", "phySymbolsPerOctet",
   "phyPreambleSymbolLength", "phyUWBDataRatesSupported", "phyCSSLowDataRateSupported",
   "phyUWBCoUSupported", "phyUWBCSSupported", "phyUWBLCPSupported", "phyRanging",
   "phyRangingCrystalOffset", "phyRangingDPS"]

/-- First message used in the C8 failing input. -/
def c8_msg1 : ScheduledMessage := ⟨[1]⟩

/-- Second message used in the C8 failing input. -/
def c8_msg2 : ScheduledMessage := ⟨[2]⟩

end LrWpan

namespace LrWpan

/-! ## Theorems -/

/-- C4 counterexample: the claim states `cw0` returns 2 for page 6 (`Mhz950`)
and 1 for page 5 (`Mhz780`); the source returns the opposite values for these
two pages. -/
theorem C4_counterexample :
    ChannelPage.cw0 ChannelPage.Mhz950 ≠ 2 ∧
    ChannelPage.cw0 ChannelPage.Mhz780 ≠ 1 := by
  decide

/-- C4 (amended): `ChannelPage::cw0` returns 2 for channel pages 0 to 5
(`Mhz868_915_2450`, `Mhz868_915_1`, `Mhz868_915_2`, `Css`, `Uwb`, `Mhz780`)
and 1 for page 6 (`Mhz950`). -/
theorem C4_cw0_table (p : ChannelPage) :
    ChannelPage.cw0 p = if p = ChannelPage.Mhz950 then 1 else 2 := by
  cases p <;> rfl

/-- Helper: `checked_duration_since` returns the exact signed difference when
the absolute difference fits an `i64`. -/
theorem Instant.checked_duration_since_spec (a b : Instant)
    (h : Nat.dist a.ticks b.ticks ≤ i64_max) :
    Instant.checked_duration_since a b =
      some ⟨(a.ticks : Int) - (b.ticks : Int)⟩ := by
  simp only [Instant.checked_duration_since, Nat.dist] at h ⊢
  rw [if_neg (by omega)]
  by_cases hab : b.ticks > a.ticks
  · rw [if_pos hab]
    simp only [Option.some.injEq, Duration.mk.injEq, mul_neg_one]
    omega
  · rw [if_neg hab]
    simp only [Option.some.injEq, Duration.mk.injEq, mul_one]
    omega

/-- C10: for Instants whose tick difference fits an `i64`, the subtraction
operator `a - b` computes `b.duration_since(a)`: the result has tick count
`b.ticks - a.ticks`, the negation of the conventional difference
`a.duration_since(b)`. -/
theorem C10_sub_swaps_operands (a b : Instant)
    (h : Nat.dist a.ticks b.ticks ≤ i64_max) :
    Instant.sub_instant a b = some ⟨(b.ticks : Int) - (a.ticks : Int)⟩ ∧
    (Instant.sub_instant a b).map Duration.ticks =
      (Instant.duration_since a b).map (fun d => -d.ticks) := by
  have h2 : Nat.dist b.ticks a.ticks ≤ i64_max := by rw [Nat.dist_comm]; exact h
  have e1 : Instant.sub_instant a b = some ⟨(b.ticks : Int) - (a.ticks : Int)⟩ :=
    Instant.checked_duration_since_spec b a h2
  have e2 : Instant.duration_since a b = some ⟨(a.ticks : Int) - (b.ticks : Int)⟩ :=
    Instant.checked_duration_since_spec a b h
  refine ⟨e1, ?_⟩
  rw [e1, e2]
  simp only [Option.map_some']
  congr 1
  omega

/-- C10 witness: the theorem applied at ticks 3 and 10. -/
theorem C10_sub_swaps_operands_witness :
    Nat.dist (3 : Nat) 10 ≤ i64_max ∧
    Instant.sub_instant ⟨3⟩ ⟨10⟩ = some ⟨(10 : Int) - (3 : Int)⟩ :=
  ⟨by decide, (C10_sub_swaps_operands ⟨3⟩ ⟨10⟩ (by decide)).1⟩

/-- C1 counterexample: the claim states that setting any attribute the
specification lists as read-only, including the derived
`macMaxFrameTotalWaitTime`, returns `ReadOnly`.  The source instead accepts a
well-typed write of `macMaxFrameTotalWaitTime` and returns `Success` (the
value is silently ignored). -/
theorem C1_counterexample :
    process_set_request_status true PhyPib.unspecified_new.pib_write
        MacPib.dummy_new.pib_write
        "macMaxFrameTotalWaitTime" (.macMaxFrameTotalWaitTime 0)
      = some (PhyPib.unspecified_new.pib_write, MacPib.dummy_new.pib_write,
          Status.Success) ∧
    Status.Success ≠ Status.ReadOnly := by
  exact ⟨rfl, by decide⟩

/-- C1 (amended): the attributes in the explicit `ReadOnly` arms of the two
`try_set` functions return `ReadOnly` and leave the PIB unchanged; the
derived `macMaxFrameTotalWaitTime` and `macBattLifeExtPeriods` accept
well-typed writes whose value is ignored (`macBattLifeExtPeriods` outside
6..=41 fails with `InvalidParameter`); out-of-range values of the
range-checked writable attributes return `InvalidParameter` and leave the PIB
unchanged; and an attribute that is neither a `phy` nor a `mac` attribute
(or is unknown to both dictionaries) confirms `UnsupportedAttribute`. -/
theorem C1_pib_set_validation :
    (∀ mac : MacPibWrite, ∀ v : PibValue, ∀ a ∈ mac_read_only_attributes,
      mac.try_set a v = some (some (mac, Status.ReadOnly))) ∧
    (∀ phy : PhyPibWrite, ∀ v : PibValue, ∀ a ∈ phy_read_only_attributes,
      phy.try_set a v = some (some (phy, Status.ReadOnly))) ∧
    (∀ mac : MacPibWrite, ∀ v : Nat,
      mac.try_set "macMaxFrameTotalWaitTime" (.macMaxFrameTotalWaitTime v)
        = some (some (mac, Status.Success))) ∧
    (∀ mac : MacPibWrite, ∀ v : Nat, 6 ≤ v ∧ v ≤ 41 →
      mac.try_set "macBattLifeExtPeriods" (.macBattLifeExtPeriods v)
        = some (some (mac, Status.Success))) ∧
    (∀ mac : MacPibWrite, ∀ v : Nat, ¬(6 ≤ v ∧ v ≤ 41) →
      mac.try_set "macBattLifeExtPeriods" (.macBattLifeExtPeriods v)
        = some (some (mac, Status.InvalidParameter))) ∧
    (∀ mac : MacPibWrite, ∀ v : Nat, ¬(3 ≤ v ∧ v ≤ 8) →
      mac.try_set "macMaxBE" (.macMaxBe v)
        = some (some (mac, Status.InvalidParameter))) ∧
    (∀ mac : MacPibWrite, ∀ v : Nat, ¬(v ≤ 5) →
      mac.try_set "macMaxCSMABackoffs" (.macMaxCsmaBackoffs v)
        = some (some (mac, Status.InvalidParameter))) ∧
    (∀ mac : MacPibWrite, ∀ v : Nat, ¬(v ≤ 7) →
      mac.try_set "macMaxFrameRetries" (.macMaxFrameRetries v)
        = some (some (mac, Status.InvalidParameter))) ∧
    (∀ mac : MacPibWrite, ∀ v : Nat, ¬(v ≤ mac.max_be) →
      mac.try_set "macMinBE" (.macMinBe v)
        = some (some (mac, Status.InvalidParameter))) ∧
    (∀ mac : MacPibWrite, ∀ v : Nat, ¬(2 ≤ v ∧ v ≤ 64) →
      mac.try_set "macResponseWaitTime" (.macResponseWaitTime v)
        = some (some (mac, Status.InvalidParameter))) ∧
    (∀ mac : MacPibWrite, ∀ v : Nat, ¬(v ≤ 100000) →
      mac.try_set "macTxControlActiveDuration" (.macTxControlActiveDuration v)
        = some (some (mac, Status.InvalidParameter))) ∧
    (∀ mac : MacPibWrite, ∀ v : Nat, ¬(v = 2000 ∨ v = 10000) →
      mac.try_set "macTxControlPauseDuration" (.macTxControlPauseDuration v)
        = some (some (mac, Status.InvalidParameter))) ∧
    (∀ phy : PhyPibWrite, ∀ mac : MacPibWrite, ∀ a : String, ∀ v : PibValue,
      starts_with a "phy" = false → starts_with a "mac" = false →
      process_set_request_status true phy mac a v
        = some (phy, mac, Status.UnsupportedAttribute)) ∧
    (process_set_request_status true PhyPib.unspecified_new.pib_write
        MacPib.dummy_new.pib_write "macNotAnAttribute" (.macBsn 1)
      = some (PhyPib.unspecified_new.pib_write, MacPib.dummy_new.pib_write,
          Status.UnsupportedAttribute)) := by
  refine ⟨?_, ?_, ?_, ?_, ?_, ?_, ?_, ?_, ?_, ?_, ?_, ?_, ?_, ?_⟩
  · intro mac v a ha
    fin_cases ha <;> rfl
  · intro phy v a ha
    fin_cases ha <;> rfl
  · intro mac v
    rfl
  · intro mac v h
    rw [show mac.try_set "macBattLifeExtPeriods" (.macBattLifeExtPeriods v)
      = some (if 6 ≤ v ∧ v ≤ 41 then some (mac, Status.Success)
          else some (mac, Status.InvalidParameter)) from rfl]
    rw [if_pos h]
  · intro mac v h
    rw [show mac.try_set "macBattLifeExtPeriods" (.macBattLifeExtPeriods v)
      = some (if 6 ≤ v ∧ v ≤ 41 then some (mac, Status.Success)
          else some (mac, Status.InvalidParameter)) from rfl]
    rw [if_neg h]
  · intro mac v h
    rw [show mac.try_set "macMaxBE" (.macMaxBe v)
      = some (if 3 ≤ v ∧ v ≤ 8 then some ({ mac with max_be := v }, Status.Success)
          else some (mac, Status.InvalidParameter)) from rfl]
    rw [if_neg h]
  · intro mac v h
    rw [show mac.try_set "macMaxCSMABackoffs" (.macMaxCsmaBackoffs v)
      = some (if v ≤ 5 then some ({ mac with max_csma_backoffs := v }, Status.Success)
          else some (mac, Status.InvalidParameter)) from rfl]
    rw [if_neg h]
  · intro mac v h
    rw [show mac.try_set "macMaxFrameRetries" (.macMaxFrameRetries v)
      = some (if v ≤ 7 then some ({ mac with max_frame_retries := v }, Status.Success)
          else some (mac, Status.InvalidParameter)) from rfl]
    rw [if_neg h]
  · intro mac v h
    rw [show mac.try_set "macMinBE" (.macMinBe v)
      = some (if v ≤ mac.max_be then some ({ mac with min_be := v }, Status.Success)
          else some (mac, Status.InvalidParameter)) from rfl]
    rw [if_neg h]
  · intro mac v h
    rw [show mac.try_set "macResponseWaitTime" (.macResponseWaitTime v)
      = some (if 2 ≤ v ∧ v ≤ 64 then some ({ mac with response_wait_time := v }, Status.Success)
          else some (mac, Status.InvalidParameter)) from rfl]
    rw [if_neg h]
  · intro mac v h
    rw [show mac.try_set "macTxControlActiveDuration" (.macTxControlActiveDuration v)
      = some (if v ≤ 100000 then
            some ({ mac with tx_control_active_duration := v }, Status.Success)
          else some (mac, Status.InvalidParameter)) from rfl]
    rw [if_neg h]
  · intro mac v h
    rw [show mac.try_set "macTxControlPauseDuration" (.macTxControlPauseDuration v)
      = some (if v = 2000 ∨ v = 10000 then
            some ({ mac with tx_control_pause_duration := v }, Status.Success)
          else some (mac, Status.InvalidParameter)) from rfl]
    rw [if_neg h]
  · intro phy mac a v h1 h2
    have hp : phy.try_set a v = none := by
      unfold PhyPibWrite.try_set
      rw [h1]
      simp
    have hm : mac.try_set a v = none := by
      unfold MacPibWrite.try_set
      rw [h2]
      simp
    simp [process_set_request_status, set_pib_value, hp, hm, MacError.into_status]
  · decide

/-- C1 witness: the amended theorem applied at concrete inputs: the read-only
attribute `macTimestampSupported` rejects a write with `ReadOnly`, and the
out-of-range write `macMaxBE := 0` fails with `InvalidParameter`. -/
theorem C1_pib_set_validation_witness :
    ("macTimestampSupported" ∈ mac_read_only_attributes ∧
      MacPib.dummy_new.pib_write.try_set "macTimestampSupported"
          (.macTimestampSupported false)
        = some (some (MacPib.dummy_new.pib_write, Status.ReadOnly))) ∧
    (¬((3 : Nat) ≤ 0 ∧ (0 : Nat) ≤ 8) ∧
      MacPib.dummy_new.pib_write.try_set "macMaxBE" (.macMaxBe 0)
        = some (some (MacPib.dummy_new.pib_write, Status.InvalidParameter))) :=
  ⟨⟨by decide,
    C1_pib_set_validation.1 MacPib.dummy_new.pib_write (.macTimestampSupported false)
      "macTimestampSupported" (by decide)⟩,
   ⟨by decide,
    C1_pib_set_validation.2.2.2.2.2.1 MacPib.dummy_new.pib_write 0 (by decide)⟩⟩

/-- C9: six well-typed writable PHY attribute writes reach the
`unreachable!()` branch of `PhyPibWrite::set` through the public
`PhyPibWrite::try_set` interface: the outer `some` shows the attribute is
dispatched as a known writable PHY attribute with a matching value variant,
and the inner `none` is the panic, so the attribute is never stored. -/
theorem C9_phy_set_unreachable_panics :
    (∀ phy : PhyPibWrite, ∀ v : Nat,
      phy.try_set "phyUWBScanBinsPerChannel" (.phyUwbScanBinsPerChannel v) = some none) ∧
    (∀ phy : PhyPibWrite, ∀ v : Nat,
      phy.try_set "phyUWBInsertedPreambleInterval"
        (.phyUwbInsertedPreambleInterval v) = some none) ∧
    (∀ phy : PhyPibWrite, ∀ v : Nat,
      phy.try_set "phyTXRMARKEROffset" (.phyTxRmarkerOffset v) = some none) ∧
    (∀ phy : PhyPibWrite, ∀ v : Nat,
      phy.try_set "phyRXRMARKEROffset" (.phyRxRmarkerOffset v) = some none) ∧
    (∀ phy : PhyPibWrite, ∀ v : Nat,
      phy.try_set "phyRFRAMEProcessingTime" (.phyRframeProcessingTime v) = some none) ∧
    (∀ phy : PhyPibWrite, ∀ v : Nat,
      phy.try_set "phyCCADuration" (.phyCcaDuration v) = some none) :=
  ⟨fun _ _ => rfl, fun _ _ => rfl, fun _ _ => rfl,
   fun _ _ => rfl, fun _ _ => rfl, fun _ _ => rfl⟩

/-- C5 counterexample: the claim states `battLifeExtPeriods` adds the ceiling
of `shr_duration / UNIT_BACKOFF_PERIOD` for every SHR duration.  At
`shr_duration = 1` the source computes term three as `(1 + 10) / 20 = 0`
(rounding to the nearest backoff period), giving 5, while the claimed ceiling
formula gives 6. -/
theorem C5_counterexample :
    MacPib.dummy_new.batt_life_ext_periods phy_pib_shr1 = 5 ∧
    3 + phy_pib_shr1.pib_write.current_page.cw0 +
        (phy_pib_shr1.shr_duration + UNIT_BACKOFF_PERIOD - 1) / UNIT_BACKOFF_PERIOD = 6 := by
  constructor <;> rfl

/-- C5 (amended): `batt_life_ext_periods` returns
`3 + CW0(page) + r` where `r` is `shr_duration / UNIT_BACKOFF_PERIOD` rounded
to the nearest integer, half up (the characterization below pins `r` within
half a backoff period of `shr_duration`), provided the `u32` addition does
not wrap and the `u8` cast does not truncate. -/
theorem C5_batt_life_ext_periods_rounds_to_nearest (m : MacPib) (phy : PhyPib)
    (h1 : phy.shr_duration + UNIT_BACKOFF_PERIOD / 2 < u32_mod)
    (h2 : 3 + phy.pib_write.current_page.cw0 +
        (phy.shr_duration + UNIT_BACKOFF_PERIOD / 2) / UNIT_BACKOFF_PERIOD < 256) :
    ∃ r : Nat,
      m.batt_life_ext_periods phy = 3 + phy.pib_write.current_page.cw0 + r ∧
      UNIT_BACKOFF_PERIOD * r ≤ phy.shr_duration + UNIT_BACKOFF_PERIOD / 2 ∧
      phy.shr_duration + UNIT_BACKOFF_PERIOD / 2 < UNIT_BACKOFF_PERIOD * (r + 1) := by
  simp only [UNIT_BACKOFF_PERIOD, u32_mod] at h1 h2 ⊢
  refine ⟨(phy.shr_duration + 20 / 2) / 20, ?_, by omega, by omega⟩
  simp only [MacPib.batt_life_ext_periods, UNIT_BACKOFF_PERIOD, u32_mod]
  rw [Nat.mod_eq_of_lt h1, Nat.mod_eq_of_lt h2]

/-- C5 witness: the amended theorem applied to the `unspecified_new` PHY PIB
(SHR duration 39, UWB page). -/
theorem C5_batt_life_ext_periods_witness :
    (PhyPib.unspecified_new.shr_duration + UNIT_BACKOFF_PERIOD / 2 < u32_mod) ∧
    (3 + PhyPib.unspecified_new.pib_write.current_page.cw0 +
        (PhyPib.unspecified_new.shr_duration + UNIT_BACKOFF_PERIOD / 2) /
          UNIT_BACKOFF_PERIOD < 256) ∧
    ∃ r : Nat,
      MacPib.dummy_new.batt_life_ext_periods PhyPib.unspecified_new =
        3 + PhyPib.unspecified_new.pib_write.current_page.cw0 + r ∧
      UNIT_BACKOFF_PERIOD * r ≤ PhyPib.unspecified_new.shr_duration +
        UNIT_BACKOFF_PERIOD / 2 ∧
      PhyPib.unspecified_new.shr_duration + UNIT_BACKOFF_PERIOD / 2 <
        UNIT_BACKOFF_PERIOD * (r + 1) :=
  ⟨by decide, by decide,
   C5_batt_life_ext_periods_rounds_to_nearest MacPib.dummy_new PhyPib.unspecified_new
     (by decide) (by decide)⟩

/-- Helper for C2: every non-panicking path of `perform_data_request`
delivers exactly one confirm. -/
theorem perform_data_request_len (env : DataReqEnv) (l : List Status)
    (h : perform_data_request_outcome env = some l) : l.length = 1 := by
  obtain ⟨sd, fp, sro, lis, stro⟩ := env
  unfold perform_data_request_outcome at h
  cases sd <;> cases fp <;> cases sro <;> cases lis <;> cases stro <;>
    first
      | (simp at h; subst h; rfl)
      | simp at h

/-- Helper for C2: every non-panicking path of `process_associate_request`
and its continuation delivers exactly one confirm. -/
theorem process_associate_len (env : AssocEnv) (l : List Status)
    (h : process_associate_outcome env = some l) : l.length = 1 := by
  obtain ⟨aa, pu, sr, qf, dr⟩ := env
  unfold process_associate_outcome at h
  cases aa <;> cases pu <;> cases sr <;> cases qf <;>
    first
      | (exact perform_data_request_len dr l h)
      | (simp at h; subst h; rfl)
      | simp at h

/-- Helper for C2: `apply_changes` delivers exactly one confirm. -/
theorem apply_changes_len (env : StartEnv) : (apply_changes_confirms env).length = 1 := by
  unfold apply_changes_confirms
  split_ifs <;> rfl

/-- Helper for C2: every non-panicking path of `process_start_request`
and its realignment callback delivers exactly one confirm. -/
theorem process_start_len (env : StartEnv) (l : List Status)
    (h : process_start_outcome env = some l) : l.length = 1 := by
  have ha := apply_changes_len env
  unfold process_start_outcome at h
  split_ifs at h <;>
    (try simp only [Option.some.injEq] at h
     subst h
     first | rfl | exact ha)


/-- Helper for C2: every non-panicking path of the scan lifecycle delivers
exactly one confirm. -/
theorem process_scan_len (env : ScanEnv) (l : List Status)
    (h : process_scan_outcome env = some l) : l.length = 1 := by
  unfold process_scan_outcome at h
  split_ifs at h <;>
    (try simp only [Option.some.injEq] at h
     subst h
     rfl)

/-- Helper for C2: every non-panicking path of `process_set_request`
delivers exactly one confirm. -/
theorem process_set_len (phy_ok : Bool) (phy : PhyPibWrite) (mac : MacPibWrite)
    (a : String) (v : PibValue) (l : List Status)
    (h : process_set_confirms phy_ok phy mac a v = some l) : l.length = 1 := by
  unfold process_set_confirms at h
  split at h <;>
    first
      | (try simp only [Option.some.injEq] at h
         subst h
         rfl)
      | simp at h

/-- C2 counterexample: the claim states every request kind produces exactly
one confirm on every path.  A `Disassociate` request reaches the `todo!()`
arm of `handle_request` and panics, delivering no confirm. -/
theorem C2_counterexample :
    handle_request_outcome RequestKind.disassociate c2_default_env = none ∧
    confirm_count (handle_request_outcome RequestKind.disassociate c2_default_env)
      ≠ some 1 := by
  exact ⟨rfl, by decide⟩

/-- C2 (amended): the request kinds `Disassociate`, `Gts`, `RxEnable`,
`Sync`, `Poll`, `Dps`, `Sounding`, `Calibrate`, `Data` and `Purge` hit
`todo!()` in `handle_request` and deliver no confirm; for the implemented
kinds (`Associate`, `Get`, `Reset`, `Scan`, `Set`, `Start`), every path of
the procedure that does not panic (panics remain on incomplete inner paths,
e.g. the missing data-request retransmission) delivers exactly one confirm
to the request responder. -/
theorem C2_one_confirm_per_request (kind : RequestKind) (env : HandlerEnv) :
    (kind ∈ unimplemented_request_kinds → handle_request_outcome kind env = none) ∧
    (∀ l : List Status, handle_request_outcome kind env = some l → l.length = 1) := by
  constructor
  · intro hk
    fin_cases hk <;> rfl
  · intro l hl
    cases kind
    case associate => exact process_associate_len env.assoc l hl
    case disassociate => simp [handle_request_outcome] at hl
    case get =>
      simp only [handle_request_outcome, Option.some.injEq] at hl
      subst hl
      unfold process_get_confirms
      split_ifs <;> rfl
    case gts => simp [handle_request_outcome] at hl
    case reset =>
      simp only [handle_request_outcome, Option.some.injEq] at hl
      subst hl
      unfold process_reset_confirms
      split_ifs <;> rfl
    case rxEnable => simp [handle_request_outcome] at hl
    case scan => exact process_scan_len env.scan l hl
    case set =>
      exact process_set_len env.set_phy_ok env.set_phy env.set_mac
        env.set_attribute env.set_value l hl
    case start => exact process_start_len env.start l hl
    case sync => simp [handle_request_outcome] at hl
    case poll => simp [handle_request_outcome] at hl
    case dps => simp [handle_request_outcome] at hl
    case sounding => simp [handle_request_outcome] at hl
    case calibrate => simp [handle_request_outcome] at hl
    case data => simp [handle_request_outcome] at hl
    case purge => simp [handle_request_outcome] at hl

/-- C2 witness: the amended theorem applied to a `Set` request on the happy
path, which confirms `Success` exactly once. -/
theorem C2_one_confirm_per_request_witness :
    handle_request_outcome RequestKind.set c2_default_env = some [Status.Success] ∧
    ([Status.Success] : List Status).length = 1 :=
  ⟨by decide,
   (C2_one_confirm_per_request RequestKind.set c2_default_env).2 [Status.Success]
     (by decide)⟩

/-- Helper for C6: one successfully started channel scan advances the end
time by exactly `symbol_duration * scan_channel_symbols` ticks and removes
the scanned channel, provided the arithmetic stays in range. -/
theorem ScanProcess.register_startScan_spec (p : ScanProcess)
    (hsym : 0 ≤ p.symbol_duration.ticks)
    (hA : p.symbol_duration.ticks * (p.scan_channel_symbols : Int) ≤ i64_max_int)
    (hend : p.end_time.ticks + p.symbol_duration.ticks.toNat * p.scan_channel_symbols
      < u64_mod)
    (hch : p.skipped_channels < p.unscanned_channels.length) :
    p.register_action_as_executed .startScan = some
      { p with
        end_time := ⟨p.end_time.ticks + p.symbol_duration.ticks.toNat * p.scan_channel_symbols⟩
        unscanned_channels := p.unscanned_channels.eraseIdx p.skipped_channels } := by
  have hA0 : (0 : Int) ≤ p.symbol_duration.ticks * (p.scan_channel_symbols : Int) :=
    mul_nonneg hsym (Int.natCast_nonneg _)
  have hB : p.symbol_duration.ticks * (p.scan_channel_symbols : Int)
      = ((p.symbol_duration.ticks.toNat * p.scan_channel_symbols : Nat) : Int) := by
    push_cast [Int.toNat_of_nonneg hsym]
    ring
  unfold ScanProcess.register_action_as_executed Duration.mul_i64 Instant.checked_add_duration
  simp only [i64_max_int] at hA
  simp only [i64_min_int, i64_max_int, u64_mod_int]
  simp only [u64_mod] at hend
  rw [hB] at hA hA0 ⊢
  rw [if_neg (by push_neg; constructor <;> omega)]
  simp only [Option.bind_eq_bind, Option.some_bind]
  rw [if_neg (by push_neg; constructor <;> omega)]
  simp only [Option.bind_eq_bind, Option.some_bind]
  rw [if_pos hch]
  have ht : ((p.end_time.ticks : Int) +
      ((p.symbol_duration.ticks.toNat * p.scan_channel_symbols : Nat) : Int)).toNat
      = p.end_time.ticks + p.symbol_duration.ticks.toNat * p.scan_channel_symbols := by
    omega
  rw [ht]

/-- C6: each successfully started channel scan occupies exactly
`BASE_SUPERFRAME_DURATION * (2 ^ min(scan_duration, 14) + 1)` symbol periods:
registering `n` started channel scans advances `end_time` by exactly `n`
times that many ticks of the symbol period, and consumes `n` channels, so a
scan over a channel set that skips nothing takes the channel count times
that duration in total. -/
theorem C6_scan_channel_duration (n : Nat) :
    ∀ p : ScanProcess,
    0 ≤ p.symbol_duration.ticks →
    p.symbol_duration.ticks * (p.scan_channel_symbols : Int) ≤ i64_max_int →
    p.end_time.ticks + n * (p.symbol_duration.ticks.toNat * p.scan_channel_symbols)
      < u64_mod →
    p.skipped_channels + n ≤ p.unscanned_channels.length →
    ∃ p' : ScanProcess,
      ScanProcess.register_scans n p = some p' ∧
      p'.end_time.ticks = p.end_time.ticks +
        n * (p.symbol_duration.ticks.toNat * p.scan_channel_symbols) ∧
      p'.unscanned_channels.length + n = p.unscanned_channels.length := by
  induction n with
  | zero =>
    intro p _ _ _ _
    exact ⟨p, rfl, by omega, by omega⟩
  | succ n ih =>
    intro p hsym hA hend hch
    rw [Nat.succ_mul] at hend
    have hlt : p.skipped_channels < p.unscanned_channels.length := by omega
    have herase := List.length_eraseIdx_add_one hlt
    have hstep := ScanProcess.register_startScan_spec p hsym hA (by omega) hlt
    obtain ⟨p', hrun, hend', hlen'⟩ := ih
      { p with
        end_time := ⟨p.end_time.ticks + p.symbol_duration.ticks.toNat * p.scan_channel_symbols⟩
        unscanned_channels := p.unscanned_channels.eraseIdx p.skipped_channels }
      hsym hA
      (by
        show p.end_time.ticks + p.symbol_duration.ticks.toNat * p.scan_channel_symbols
          + n * (p.symbol_duration.ticks.toNat * p.scan_channel_symbols) < u64_mod
        omega)
      (by
        show p.skipped_channels + n ≤ (p.unscanned_channels.eraseIdx p.skipped_channels).length
        omega)
    have hend2 : p'.end_time.ticks =
        p.end_time.ticks + p.symbol_duration.ticks.toNat * p.scan_channel_symbols
          + n * (p.symbol_duration.ticks.toNat * p.scan_channel_symbols) := hend'
    have hlen2 : p'.unscanned_channels.length + n =
        (p.unscanned_channels.eraseIdx p.skipped_channels).length := hlen'
    refine ⟨p', ?_, ?_, ?_⟩
    · simp only [ScanProcess.register_scans, hstep, Option.some_bind]
      exact hrun
    · rw [Nat.succ_mul]
      omega
    · omega

/-- C6 witness: the theorem applied to a concrete two-channel scan process
with scan duration 0 and a one-tick symbol period; both channels are scanned
and the end time advances by `2 * 960 * 2` ticks. -/
theorem C6_scan_channel_duration_witness :
    (0 ≤ c6_process.symbol_duration.ticks) ∧
    ∃ p' : ScanProcess,
      ScanProcess.register_scans 2 c6_process = some p' ∧
      p'.end_time.ticks = c6_process.end_time.ticks +
        2 * (c6_process.symbol_duration.ticks.toNat * c6_process.scan_channel_symbols) ∧
      p'.unscanned_channels.length + 2 = c6_process.unscanned_channels.length :=
  ⟨by decide,
   C6_scan_channel_duration 2 c6_process (by decide) (by decide) (by decide) (by decide)⟩

/-- Helper for C7: the drain loop pops from the front, a `SendAck` handler
pushes nothing, so when a `SendAck` is at the front of the deque it is the
first event handled. -/
theorem sendAck_handled_first (fuel : Nat) (ts : Instant) (frame : MsgFrame)
    (st : MsgState) (t : Instant) (s : Nat) (fp : Bool) (rest handled : List RadioEvent)
    (hf : fuel ≠ 0)
    (h : handle_radio_event_order fuel ts frame st (.sendAck t s fp :: rest)
      = some handled) :
    handled.head? = some (.sendAck t s fp) := by
  cases fuel with
  | zero => exact absurd rfl hf
  | succ f =>
    unfold handle_radio_event_order at h
    simp only [] at h
    cases hrec : handle_radio_event_order f ts frame st rest with
    | none => rw [hrec] at h; exact absurd h (by simp)
    | some tail =>
      rw [hrec] at h
      simp only [Option.some.injEq] at h
      subst h
      rfl

/-- C7 counterexample: the claim states that whenever a received frame
passes filtering and has its `ack_request` flag set, `SendAck` is pushed to
the front of the deque.  An accepted `BeaconRequest` command frame with
`ack_request` set passes the (always-true) filter but returns before the
acknowledgement handling: only `BeaconRequested` is enqueued and no
`SendAck` is ever produced. -/
theorem C7_counterexample :
    filter_frame c7_frame = true ∧ c7_frame.ack_request = true ∧
    process_message ⟨0⟩ c7_frame c7_state [] = some [RadioEvent.beaconRequested] ∧
    ((process_message ⟨0⟩ c7_frame c7_state []).getD []).any RadioEvent.is_send_ack
      = false := by
  decide

/-- C7 (amended): whenever a received frame passes filtering, is processed
outside an active scan, is not a `BeaconRequest` command (which returns
early), and has `ack_request` set, `process_message` pushes `SendAck` to the
front of the pending-event deque — the result is the `SendAck` followed by
the prior deque contents and any follow-up events (such as
`SendPendingData`) enqueued at the back while processing the same frame —
and the front-first drain of `handle_radio_event` handles that `SendAck`
first, so the ACK transmission is issued before any follow-up event. -/
theorem C7_ack_pushed_front (ts : Instant) (frame : MsgFrame) (st : MsgState)
    (dq : List RadioEvent)
    (hscan : st.scan_active = false)
    (hbr : frame.content ≠ .commandBeaconRequest)
    (hack : frame.ack_request = true)
    (hroom : dq.length ≤ 2) :
    ∃ (fp : Bool) (new_events : List RadioEvent),
      process_message ts frame st dq
        = some (.sendAck ts frame.seq fp :: (dq ++ new_events)) ∧
      ∀ (fuel : Nat) (handled : List RadioEvent), fuel ≠ 0 →
        handle_radio_event_order fuel ts frame st
            (.sendAck ts frame.seq fp :: (dq ++ new_events)) = some handled →
        handled.head? = some (.sendAck ts frame.seq fp) := by
  have hlen4 : dq.length < 4 := by omega
  have hlen4' : dq.length + 1 < 4 := by omega
  obtain ⟨content, ack, seq, src⟩ := frame
  simp only at hack hbr
  subst hack
  cases content
  case commandBeaconRequest => exact absurd rfl hbr
  case commandDataRequest =>
    cases src with
    | none =>
      refine ⟨false, [], ?_, ?_⟩
      · simp [process_message, filter_frame, hscan, deque_push_front, hlen4]
      · intro fuel handled hf h
        exact sendAck_handled_first fuel ts _ st ts seq false _ handled hf h
    | some s =>
      refine ⟨st.has_pending_data, [.sendPendingData ts s], ?_, ?_⟩
      · simp [process_message, filter_frame, hscan, deque_push_back,
          deque_push_front, hlen4, hlen4']
      · intro fuel handled hf h
        exact sendAck_handled_first fuel ts _ st ts seq st.has_pending_data _ handled hf h
  case beacon =>
    refine ⟨false, [], ?_, ?_⟩
    · simp [process_message, filter_frame, hscan, deque_push_front, hlen4]
    · intro fuel handled hf h
      exact sendAck_handled_first fuel ts _ st ts seq false _ handled hf h
  case commandAssociationRequest =>
    refine ⟨false, [], ?_, ?_⟩
    · simp [process_message, filter_frame, hscan, deque_push_front, hlen4]
    · intro fuel handled hf h
      exact sendAck_handled_first fuel ts _ st ts seq false _ handled hf h
  case other =>
    refine ⟨false, [], ?_, ?_⟩
    · simp [process_message, filter_frame, hscan, deque_push_front, hlen4]
    · intro fuel handled hf h
      exact sendAck_handled_first fuel ts _ st ts seq false _ handled hf h

/-- C7 witness: the amended theorem applied to a data-request frame with
`ack_request` set, in a state with pending data for the requester: the deque
becomes `SendAck` first, `SendPendingData` second. -/
theorem C7_ack_pushed_front_witness :
    (c7_witness_state.scan_active = false ∧
     c7_witness_frame.content ≠ MsgContent.commandBeaconRequest ∧
     c7_witness_frame.ack_request = true ∧
     ([] : List RadioEvent).length ≤ 2) ∧
    ∃ (fp : Bool) (new_events : List RadioEvent),
      process_message ⟨0⟩ c7_witness_frame c7_witness_state []
        = some (.sendAck ⟨0⟩ c7_witness_frame.seq fp :: ([] ++ new_events)) ∧
      ∀ (fuel : Nat) (handled : List RadioEvent), fuel ≠ 0 →
        handle_radio_event_order fuel ⟨0⟩ c7_witness_frame c7_witness_state
            (.sendAck ⟨0⟩ c7_witness_frame.seq fp :: ([] ++ new_events)) = some handled →
        handled.head? = some (.sendAck ⟨0⟩ c7_witness_frame.seq fp) :=
  ⟨⟨rfl, by decide, rfl, by decide⟩,
   C7_ack_pushed_front ⟨0⟩ c7_witness_frame c7_witness_state []
     rfl (by decide) rfl (by decide)⟩

/-- C8: evaluation of the broadcast queue at the failing input.  Two messages
pushed with the plain (non-priority) `schedule_broadcast`, first `c8_msg1` and
then `c8_msg2`; `take_scheduled_broadcast` returns the message pushed last,
because `schedule_broadcast` in the source calls `push_front` exactly like
`schedule_broadcast_priority`.  The claim (and the specification) require
arrival order, under which the pop would return `c8_msg1`. -/
theorem C8_broadcast_not_fifo :
    ((MessageScheduler.empty.schedule_broadcast c8_msg1).bind
        (fun q => q.schedule_broadcast c8_msg2)).map
      MessageScheduler.take_scheduled_broadcast = some (some c8_msg2) ∧
    c8_msg2 ≠ c8_msg1 := by
  decide

/-! ## C3 helper lemmas: the wire codec round trip -/

/-- Little-endian write/read round trip for values in range. -/
theorem read_write_le (k : Nat) : ∀ (v : Nat) (rest : List Nat), v < 256 ^ k →
    read_le k (write_le k v ++ rest) = some (v, rest) := by
  induction k with
  | zero =>
    intro v rest hv
    simp only [pow_zero, Nat.lt_one_iff] at hv
    subst hv
    rfl
  | succ k ih =>
    intro v rest hv
    have hdiv : v / 256 < 256 ^ k := by
      apply Nat.div_lt_of_lt_mul
      rw [pow_succ] at hv
      omega
    simp only [write_le, read_le, List.cons_append, ih (v / 256) rest hdiv]
    rw [Nat.mod_add_div v 256]

/-- Bit extraction from byte 0 of the superframe specification. -/
theorem sfs_byte0_bits : ∀ a < 16, ∀ b < 16,
    (((a &&& 15) ||| ((b <<< 4) % 256)) &&& 15 = a) ∧
    ((((a &&& 15) ||| ((b <<< 4) % 256)) >>> 4) &&& 15 = b) := by
  decide

/-- Bit extraction from byte 1 of the superframe specification. -/
theorem sfs_byte1_bits : ∀ fc < 16, ∀ (x y z : Bool),
    ((((fc &&& 15) ||| (if x then 16 else 0) ||| (if y then 64 else 0) |||
        (if z then 128 else 0)) &&& 15) = fc) ∧
    ((((fc &&& 15) ||| (if x then 16 else 0) ||| (if y then 64 else 0) |||
        (if z then 128 else 0)) &&& 16 == 16) = x) ∧
    ((((fc &&& 15) ||| (if x then 16 else 0) ||| (if y then 64 else 0) |||
        (if z then 128 else 0)) &&& 64 == 64) = y) ∧
    ((((fc &&& 15) ||| (if x then 16 else 0) ||| (if y then 64 else 0) |||
        (if z then 128 else 0)) &&& 128 == 128) = z) := by
  decide

/-- A representable beacon order survives the `u8` round trip and its code is
below 16. -/
theorem beacon_order_fromU8_toU8 (bo : BeaconOrder)
    (h : match bo with | .beaconOrder v => v ≤ 14 | .onDemand => True) :
    BeaconOrder.fromU8 bo.toU8 = bo ∧ bo.toU8 < 16 := by
  cases bo with
  | beaconOrder v =>
    simp only at h
    refine ⟨by simp [BeaconOrder.fromU8, BeaconOrder.toU8, h], ?_⟩
    simp only [BeaconOrder.toU8]
    omega
  | onDemand => exact ⟨rfl, by decide⟩

/-- A representable superframe order survives the `u8` round trip and its code
is below 16. -/
theorem superframe_order_fromU8_toU8 (so : SuperframeOrder)
    (h : match so with | .superframeOrder v => v ≤ 14 | .inactive => True) :
    SuperframeOrder.fromU8 so.toU8 = so ∧ so.toU8 < 16 := by
  cases so with
  | superframeOrder v =>
    simp only at h
    refine ⟨by simp [SuperframeOrder.fromU8, SuperframeOrder.toU8, h], ?_⟩
    simp only [SuperframeOrder.toU8]
    omega
  | inactive => exact ⟨rfl, by decide⟩

/-- Superframe specification round trip. -/
theorem sfs_roundtrip (s : SuperframeSpecification) (rest : List Nat)
    (hbo : match s.beacon_order with | .beaconOrder v => v ≤ 14 | .onDemand => True)
    (hso : match s.superframe_order with
      | .superframeOrder v => v ≤ 14 | .inactive => True)
    (hfc : s.final_cap_slot < 16) :
    SuperframeSpecification.try_read (s.try_write ++ rest) = some (s, rest) := by
  obtain ⟨hbo1, hbo2⟩ := beacon_order_fromU8_toU8 s.beacon_order hbo
  obtain ⟨hso1, hso2⟩ := superframe_order_fromU8_toU8 s.superframe_order hso
  obtain ⟨h01, h02⟩ := sfs_byte0_bits s.beacon_order.toU8 hbo2 s.superframe_order.toU8 hso2
  obtain ⟨h11, h12, h13, h14⟩ := sfs_byte1_bits s.final_cap_slot hfc
    s.battery_life_extension s.pan_coordinator s.association_permit
  simp only [SuperframeSpecification.try_write, SuperframeSpecification.try_read,
    List.cons_append, List.nil_append, h01, h02, h11, h12, h13, h14, hbo1, hso1,
    Option.some.injEq, Prod.mk.injEq, and_true]

/-- Bit extraction from the slot byte of a GTS descriptor. -/
theorem gtsd_byte_bits : ∀ a < 16, ∀ b < 16,
    ((a ||| ((b <<< 4) % 256)) &&& 15 = a) ∧ ((a ||| ((b <<< 4) % 256)) >>> 4 = b) := by
  decide

/-- GTS descriptor round trip; the parsed direction is the placeholder
`Receive`, fixed up by the caller from the mask byte. -/
theorem gtsd_roundtrip (s : GuaranteedTimeSlotDescriptor) (rest : List Nat)
    (ha : s.short_address.val < 2 ^ 16) (hs : s.starting_slot < 16)
    (hl : s.length < 16) :
    GuaranteedTimeSlotDescriptor.try_read (s.try_write ++ rest)
      = some ({ s with direction := .Receive }, rest) := by
  obtain ⟨h1, h2⟩ := gtsd_byte_bits s.starting_slot hs s.length hl
  have hle := read_write_le 2 s.short_address.val
    ((s.starting_slot ||| ((s.length <<< 4) % 256)) :: rest) (by exact_mod_cast ha)
  simp only [GuaranteedTimeSlotDescriptor.try_write, GuaranteedTimeSlotDescriptor.try_read,
    List.append_assoc, List.cons_append, List.nil_append, hle, h1, h2]

/-- Setting bit `k` in a number below `2 ^ k` adds `2 ^ k`. -/
theorem two_pow_or_bit : ∀ k < 8, ∀ a < 2 ^ k, a ||| 2 ^ k = a + 2 ^ k := by
  decide

/-- The direction-mask loop computes the transmit-bit mask `gts_mask0`,
shifted into position `k`, for up to 8 slots. -/
theorem gts_direction_mask_spec (slots : List GuaranteedTimeSlotDescriptor) :
    ∀ (k acc : Nat), slots.length + k ≤ 8 → acc < 2 ^ k →
      gts_direction_mask slots (2 ^ k) acc = acc + 2 ^ k * gts_mask0 slots := by
  induction slots with
  | nil =>
    intro k acc _ _
    simp [gts_direction_mask, gts_mask0]
  | cons s rest ih =>
    intro k acc hlen hacc
    have hk : k < 8 := by simp only [List.length_cons] at hlen; omega
    have hacc2 : (if s.direction = .Transmit then acc ||| 2 ^ k else acc) =
        acc + 2 ^ k * (if s.direction = .Transmit then 1 else 0) := by
      split
      · rw [two_pow_or_bit k hk acc hacc]; ring
      · ring
    cases rest with
    | nil =>
      rw [show gts_direction_mask [s] (2 ^ k) acc
            = (if s.direction = .Transmit then acc ||| 2 ^ k else acc) from rfl,
          hacc2, show gts_mask0 [s] = (if s.direction = .Transmit then 1 else 0) + 2 * 0
            from rfl]
      ring
    | cons r rs =>
      have hk1 : k + 1 ≤ 7 := by simp only [List.length_cons] at hlen; omega
      have hlt : 2 ^ (k + 1) < 256 := by
        calc 2 ^ (k + 1) ≤ 2 ^ 7 := Nat.pow_le_pow_right (by norm_num) hk1
        _ < 256 := by norm_num
      have hshift : ((2 ^ k) <<< 1) % 256 = 2 ^ (k + 1) := by
        rw [Nat.shiftLeft_eq, pow_one, ← pow_succ]
        exact Nat.mod_eq_of_lt hlt
      have hacc3 : acc + 2 ^ k * (if s.direction = .Transmit then 1 else 0) < 2 ^ (k + 1) := by
        rw [pow_succ]
        split <;> omega
      have hih := ih (k + 1) (acc + 2 ^ k * (if s.direction = .Transmit then 1 else 0))
        (by simp only [List.length_cons] at hlen ⊢; omega) hacc3
      rw [show gts_direction_mask (s :: r :: rs) (2 ^ k) acc
            = gts_direction_mask (r :: rs) ((2 ^ k <<< 1) % 256)
                (if s.direction = .Transmit then acc ||| 2 ^ k else acc) from rfl,
          hacc2, hshift, hih,
          show gts_mask0 (s :: r :: rs)
            = (if s.direction = .Transmit then 1 else 0) + 2 * gts_mask0 (r :: rs) from rfl,
          pow_succ]
      ring

/-- Each serialized GTS descriptor takes three bytes. -/
theorem gtsd_write_length (s : GuaranteedTimeSlotDescriptor) :
    s.try_write.length = 3 := by
  simp [GuaranteedTimeSlotDescriptor.try_write, write_le]

/-- The serialized GTS descriptor list takes three bytes per slot. -/
theorem gts_flatten_length (slots : List GuaranteedTimeSlotDescriptor) :
    (slots.map GuaranteedTimeSlotDescriptor.try_write).flatten.length
      = 3 * slots.length := by
  induction slots with
  | nil => rfl
  | cons s rest ih =>
    simp only [List.map_cons, List.flatten_cons, List.length_append, List.length_cons,
      gtsd_write_length, ih]
    ring

/-- The slot-reading loop restores the slot list, taking each direction from
its bit of the transmit mask. -/
theorem read_gts_slots_spec (slots : List GuaranteedTimeSlotDescriptor) :
    ∀ (rest : List Nat),
      (∀ s ∈ slots,
        s.short_address.val < 2 ^ 16 ∧ s.starting_slot < 16 ∧ s.length < 16) →
      read_gts_slots slots.length (gts_mask0 slots)
        ((slots.map GuaranteedTimeSlotDescriptor.try_write).flatten ++ rest)
      = some (slots, rest) := by
  induction slots with
  | nil =>
    intro rest _
    rfl
  | cons s rest0 ih =>
    intro rest hwf
    obtain ⟨ha, hs, hl⟩ := hwf s (List.mem_cons_self s rest0)
    have hrt := gtsd_roundtrip s
      ((rest0.map GuaranteedTimeSlotDescriptor.try_write).flatten ++ rest) ha hs hl
    have hih := ih rest (fun t ht => hwf t (List.mem_cons_of_mem _ ht))
    have hmask1 : gts_mask0 (s :: rest0) &&& 1
        = (if s.direction = .Transmit then 1 else 0) := by
      rw [show gts_mask0 (s :: rest0)
            = (if s.direction = .Transmit then 1 else 0) + 2 * gts_mask0 rest0 from rfl,
          Nat.and_one_is_mod]
      split <;> omega
    have hmask2 : gts_mask0 (s :: rest0) >>> 1 = gts_mask0 rest0 := by
      rw [show gts_mask0 (s :: rest0)
            = (if s.direction = .Transmit then 1 else 0) + 2 * gts_mask0 rest0 from rfl,
          Nat.shiftRight_eq_div_pow, pow_one]
      split <;> omega
    simp only [List.length_cons, List.map_cons, List.flatten_cons, List.append_assoc,
      read_gts_slots, hrt, hmask2, hih, hmask1]
    obtain ⟨sa, ss, sl, sd⟩ := s
    cases sd <;> simp

/-- Bit extraction from the GTS block header byte. -/
theorem gts_header_bits : ∀ n < 8, ∀ (p : Bool),
    (((n % 256 &&& 7) ||| (if p then 128 else 0)) &&& 7 = n) ∧
    ((((n % 256 &&& 7) ||| (if p then 128 else 0)) &&& 128 == 128) = p) := by
  decide

/-- GTS information block round trip.  The source `check_len` requires one
byte more than the block consumes, hence the nonempty-remainder hypothesis
(discharged inside a beacon by the following pending-address block). -/
theorem gts_roundtrip (g : GuaranteedTimeSlotInformation) (rest : List Nat)
    (hlen : g.slots.length ≤ 7)
    (hwf : ∀ s ∈ g.slots,
      s.short_address.val < 2 ^ 16 ∧ s.starting_slot < 16 ∧ s.length < 16)
    (hrest : rest ≠ []) :
    GuaranteedTimeSlotInformation.try_read (g.try_write ++ rest) = some (g, rest) := by
  obtain ⟨permit, slots⟩ := g
  cases slots with
  | nil => cases permit <;> rfl
  | cons s rest0 =>
    simp only at hlen hwf
    obtain ⟨hh1, hh2⟩ := gts_header_bits (s :: rest0).length (by omega) permit
    have hmask := gts_direction_mask_spec (s :: rest0) 0 0 (by omega) (by norm_num)
    simp only [pow_zero, one_mul, zero_add] at hmask
    have hslots := read_gts_slots_spec (s :: rest0) rest hwf
    have hr : 0 < rest.length := List.length_pos.mpr hrest
    simp only [List.length_cons] at hh1 hh2 hslots
    simp only [GuaranteedTimeSlotInformation.try_write, List.isEmpty_cons, Bool.false_eq_true,
      if_false, List.cons_append, GuaranteedTimeSlotInformation.try_read,
      List.length_cons, hh1, hh2]
    rw [if_neg (by omega)]
    rw [if_neg (by
      simp only [List.length_cons, List.length_append, gts_flatten_length]
      omega)]
    rw [hmask, hslots]

/-- Bit extraction from the pending-address header byte. -/
theorem pa_header_bits : ∀ sl < 8, ∀ el < 8,
    (((((el % 256) <<< 4) &&& 112) ||| ((sl % 256) &&& 7)) &&& 7 = sl) ∧
    ((((((el % 256) <<< 4) &&& 112) ||| ((sl % 256) &&& 7)) &&& 112) >>> 4 = el) := by
  decide

/-- A little-endian write takes exactly its width in bytes. -/
theorem write_le_length (k : Nat) : ∀ v, (write_le k v).length = k := by
  induction k with
  | zero => intro v; rfl
  | succ k ih => intro v; simp [write_le, ih]

/-- The short-address reading loop restores the address list. -/
theorem read_short_addresses_spec (l : List ShortAddress) :
    ∀ (rest : List Nat), (∀ a ∈ l, a.val < 2 ^ 16) →
      read_short_addresses l.length ((l.map (fun a => write_le 2 a.val)).flatten ++ rest)
        = some (l, rest) := by
  induction l with
  | nil => intro rest _; rfl
  | cons a l ih =>
    intro rest h
    have ha := h a (List.mem_cons_self a l)
    have hle := read_write_le 2 a.val ((l.map (fun a => write_le 2 a.val)).flatten ++ rest)
      (by exact_mod_cast ha)
    have hih := ih rest (fun t ht => h t (List.mem_cons_of_mem _ ht))
    simp only [List.length_cons, List.map_cons, List.flatten_cons, List.append_assoc,
      read_short_addresses, hle, hih]

/-- The extended-address reading loop restores the address list. -/
theorem read_extended_addresses_spec (l : List ExtendedAddress) :
    ∀ (rest : List Nat), (∀ a ∈ l, a.val < 2 ^ 64) →
      read_extended_addresses l.length
          ((l.map (fun a => write_le 8 a.val)).flatten ++ rest)
        = some (l, rest) := by
  induction l with
  | nil => intro rest _; rfl
  | cons a l ih =>
    intro rest h
    have ha := h a (List.mem_cons_self a l)
    have hle := read_write_le 8 a.val ((l.map (fun a => write_le 8 a.val)).flatten ++ rest)
      (by exact_mod_cast ha)
    have hih := ih rest (fun t ht => h t (List.mem_cons_of_mem _ ht))
    simp only [List.length_cons, List.map_cons, List.flatten_cons, List.append_assoc,
      read_extended_addresses, hle, hih]

/-- The serialized address lists take their width in bytes per entry. -/
theorem addr_flatten_length (k : Nat) (l : List Nat) :
    ((l.map (fun v => write_le k v)).flatten).length = k * l.length := by
  induction l with
  | nil => simp
  | cons a l ih =>
    simp only [List.map_cons, List.flatten_cons, List.length_append, write_le_length, ih,
      List.length_cons]
    ring

/-- Pending-address block round trip. -/
theorem pa_roundtrip (p : PendingAddress) (rest : List Nat)
    (hsl : p.short_addresses.length ≤ 7) (hel : p.extended_addresses.length ≤ 7)
    (hs : ∀ a ∈ p.short_addresses, a.val < 2 ^ 16)
    (he : ∀ a ∈ p.extended_addresses, a.val < 2 ^ 64) :
    PendingAddress.try_read (p.try_write ++ rest) = some (p, rest) := by
  obtain ⟨shorts, exts⟩ := p
  simp only at hsl hel hs he
  obtain ⟨hh1, hh2⟩ := pa_header_bits shorts.length (by omega) exts.length (by omega)
  have hshorts := read_short_addresses_spec shorts
    ((exts.map (fun a => write_le 8 a.val)).flatten ++ rest) hs
  have hexts := read_extended_addresses_spec exts rest he
  have hflat1 : ((shorts.map (fun a => write_le 2 a.val)).flatten).length
      = 2 * shorts.length := by
    have := addr_flatten_length 2 (shorts.map (fun a => a.val))
    simpa [List.map_map, Function.comp] using this
  have hflat2 : ((exts.map (fun a => write_le 8 a.val)).flatten).length
      = 8 * exts.length := by
    have := addr_flatten_length 8 (exts.map (fun a => a.val))
    simpa [List.map_map, Function.comp] using this
  simp only [PendingAddress.try_write, List.cons_append, List.append_assoc,
    PendingAddress.try_read, hh1, hh2]
  rw [if_neg (by
    simp only [List.length_append, hflat1, hflat2]
    omega)]
  rw [hshorts]
  simp only [hexts]

/-- Beacon round trip for well-formed beacons. -/
theorem beacon_roundtrip (b : Beacon) (rest : List Nat) (hwf : Beacon.wf b = true) :
    Beacon.try_read (b.try_write ++ rest) = some (b, rest) := by
  obtain ⟨sfs, gts, pa⟩ := b
  simp only [Beacon.wf, Beacon.claim_valid, Bool.and_eq_true, List.all_eq_true,
    decide_eq_true_eq] at hwf
  obtain ⟨⟨⟨⟨⟨⟨⟨⟨⟨hbo, hso⟩, hfc⟩, hglen⟩, hgwf⟩, hpsl⟩, hpswf⟩, hpel⟩, hpewf⟩, hg16⟩ := hwf
  have hbo2 : match sfs.beacon_order with
      | .beaconOrder v => v ≤ 14 | .onDemand => True := by
    cases h : sfs.beacon_order with
    | beaconOrder v => rw [h] at hbo; simpa using hbo
    | onDemand => trivial
  have hso2 : match sfs.superframe_order with
      | .superframeOrder v => v ≤ 14 | .inactive => True := by
    cases h : sfs.superframe_order with
    | superframeOrder v => rw [h] at hso; simpa using hso
    | inactive => trivial
  have hsfs := sfs_roundtrip sfs (gts.try_write ++ (pa.try_write ++ rest)) hbo2 hso2 hfc
  have hgts := gts_roundtrip gts (pa.try_write ++ rest) hglen
    (fun s hs => ⟨(hgwf s hs).1, (hgwf s hs).2, hg16 s hs⟩)
    (by simp [PendingAddress.try_write])
  have hpa := pa_roundtrip pa rest hpsl hpel hpswf hpewf
  simp only [Beacon.try_write, List.append_assoc, Beacon.try_read, hsfs, hgts, hpa]

/-- Bit extraction from byte 0 of the frame control field. -/
theorem fcf0_bits : ∀ t < 3, ∀ (fp ar pc : Bool),
    ((t ||| (if fp then 16 else 0) ||| (if ar then 32 else 0) |||
        (if pc then 64 else 0)) &&& 7 = t) ∧
    (((t ||| (if fp then 16 else 0) ||| (if ar then 32 else 0) |||
        (if pc then 64 else 0)) &&& 16 == 16) = fp) ∧
    (((t ||| (if fp then 16 else 0) ||| (if ar then 32 else 0) |||
        (if pc then 64 else 0)) &&& 32 == 32) = ar) ∧
    (((t ||| (if fp then 16 else 0) ||| (if ar then 32 else 0) |||
        (if pc then 64 else 0)) &&& 64 == 64) = pc) := by
  decide

/-- Bit extraction from byte 1 of the frame control field. -/
theorem fcf1_bits : ∀ (sns ie : Bool), ∀ dm < 4, ∀ vb < 3, ∀ sm < 4,
    ((((if sns then 1 else 0) ||| (if ie then 2 else 0) ||| (dm <<< 2) |||
        (vb <<< 4) ||| (sm <<< 6)) &&& 1 == 1) = sns) ∧
    ((((if sns then 1 else 0) ||| (if ie then 2 else 0) ||| (dm <<< 2) |||
        (vb <<< 4) ||| (sm <<< 6)) &&& 2 == 2) = ie) ∧
    ((((if sns then 1 else 0) ||| (if ie then 2 else 0) ||| (dm <<< 2) |||
        (vb <<< 4) ||| (sm <<< 6)) >>> 2) &&& 3 = dm) ∧
    ((((if sns then 1 else 0) ||| (if ie then 2 else 0) ||| (dm <<< 2) |||
        (vb <<< 4) ||| (sm <<< 6)) >>> 4) &&& 3 = vb) ∧
    ((((if sns then 1 else 0) ||| (if ie then 2 else 0) ||| (dm <<< 2) |||
        (vb <<< 4) ||| (sm <<< 6)) >>> 6) &&& 3 = sm) := by
  decide

/-- Frame-type bits decode back to the frame type. -/
theorem read_frame_type_bits (ft : FrameType) : read_frame_type ft.bits = some ft := by
  cases ft <;> rfl

/-- Frame-version bits decode back to the version. -/
theorem read_frame_version_bits (v : FrameVersion) :
    read_frame_version v.bits = some v := by
  cases v <;> rfl

/-- Address serialization round trip: a present address parses back under the
same elision mode, with the elided PAN id resupplied by the caller. -/
theorem read_write_address (a : Address) (elide : Bool) (pan : PanId) (rest : List Nat)
    (hwf : a.wf = true) (helide : elide = true → a.pan_id = pan) :
    read_address (addressing_mode (some a)) elide pan (write_address elide a ++ rest)
      = some (some a, rest) := by
  cases a with
  | short p addr =>
    simp only [Address.wf, Bool.and_eq_true, decide_eq_true_eq] at hwf
    have h2 := read_write_le 2 addr.val rest (by exact_mod_cast hwf.2)
    cases elide with
    | false =>
      have h1 := read_write_le 2 p.val (write_le 2 addr.val ++ rest)
        (by exact_mod_cast hwf.1)
      simp only [addressing_mode, write_address, Bool.false_eq_true, if_false,
        List.append_assoc, read_address, h1, h2]
    | true =>
      have hpan := helide rfl
      simp only [Address.pan_id] at hpan
      subst hpan
      simp only [addressing_mode, write_address, if_true, List.nil_append,
        read_address, h2]
  | extended p addr =>
    simp only [Address.wf, Bool.and_eq_true, decide_eq_true_eq] at hwf
    have h2 := read_write_le 8 addr.val rest (by exact_mod_cast hwf.2)
    cases elide with
    | false =>
      have h1 := read_write_le 2 p.val (write_le 8 addr.val ++ rest)
        (by exact_mod_cast hwf.1)
      simp only [addressing_mode, write_address, Bool.false_eq_true, if_false,
        List.append_assoc, read_address, h1, h2]
    | true =>
      have hpan := helide rfl
      simp only [Address.pan_id] at hpan
      subst hpan
      simp only [addressing_mode, write_address, if_true, List.nil_append,
        read_address, h2]

/-- An absent address reads back as `none` without consuming bytes. -/
theorem read_address_none (el : Bool) (pn : PanId) (bs : List Nat) :
    read_address (addressing_mode none) el pn bs = some (none, bs) := rfl

/-- Header round trip for well-formed headers. -/
theorem header_roundtrip (h : Header) (rest : List Nat) (hwf : Header.wf h = true) :
    Header.try_read (h.try_write ++ rest) = some (h, rest) := by
  obtain ⟨ft, fp, ar, pc, sns, ie, ver, seq, dest, src⟩ := h
  simp only [Header.wf, Bool.and_eq_true, Bool.or_eq_true, Bool.not_eq_true',
    decide_eq_true_eq, beq_iff_eq] at hwf
  obtain ⟨⟨⟨⟨hseq, hsns⟩, hdwf⟩, hswf⟩, hpc⟩ := hwf
  have hft : ft.bits < 3 := by cases ft <;> decide
  have hvb : ver.bits < 3 := by cases ver <;> decide
  have hdm : addressing_mode dest < 4 := by
    cases dest with
    | none => simp [addressing_mode]
    | some a => cases a <;> simp [addressing_mode]
  have hsm : addressing_mode src < 4 := by
    cases src with
    | none => simp [addressing_mode]
    | some a => cases a <;> simp [addressing_mode]
  obtain ⟨hb01, hb02, hb03, hb04⟩ := fcf0_bits ft.bits hft fp ar pc
  obtain ⟨hb11, hb12, hb13, hb14, hb15⟩ :=
    fcf1_bits sns ie (addressing_mode dest) hdm ver.bits hvb (addressing_mode src) hsm
  simp only [Header.try_write, List.cons_append, List.nil_append, List.append_assoc,
    Header.try_read, hb01, hb02, hb03, hb04, hb11, hb12, hb13, hb14, hb15,
    read_frame_type_bits, read_frame_version_bits]
  cases sns with
  | false =>
    have hseqm : seq % 256 = seq := Nat.mod_eq_of_lt hseq
    cases dest with
    | none =>
      have hpcf : pc = false := by
        rcases hpc with h1 | h1
        · exact h1
        · simp at h1
      subst hpcf
      cases src with
      | none =>
        simp [hseqm, read_address_none]
      | some s =>
        have hswf2 : s.wf = true := by simpa using hswf
        have hrs := read_write_address s false ⟨0⟩ rest hswf2
          (fun hx => Bool.noConfusion hx)
        simp [hseqm, read_address_none, hrs]
    | some d =>
      have hdwf2 : d.wf = true := by simpa using hdwf
      cases src with
      | none =>
        have hrd := read_write_address d false ⟨0⟩ rest hdwf2
          (fun hx => Bool.noConfusion hx)
        simp [hseqm, hrd, read_address_none]
      | some s =>
        have hswf2 : s.wf = true := by simpa using hswf
        have hrd := read_write_address d false ⟨0⟩ (write_address pc s ++ rest) hdwf2
          (fun hx => Bool.noConfusion hx)
        have hpan : pc = true → Address.pan_id s = d.pan_id := by
          intro hpct
          rcases hpc with h1 | h1
          · rw [hpct] at h1
            exact Bool.noConfusion h1
          · simp only [beq_iff_eq] at h1
            exact h1.symm
        have hrs := read_write_address s pc d.pan_id rest hswf2 hpan
        simp [hseqm, hrd, hrs]
  | true =>
    have hseq0 : seq = 0 := by
      rcases hsns with h1 | h1
      · exact Bool.noConfusion h1
      · exact h1
    subst hseq0
    cases dest with
    | none =>
      have hpcf : pc = false := by
        rcases hpc with h1 | h1
        · exact h1
        · simp at h1
      subst hpcf
      cases src with
      | none =>
        simp [read_address_none]
      | some s =>
        have hswf2 : s.wf = true := by simpa using hswf
        have hrs := read_write_address s false ⟨0⟩ rest hswf2
          (fun hx => Bool.noConfusion hx)
        simp [read_address_none, hrs]
    | some d =>
      have hdwf2 : d.wf = true := by simpa using hdwf
      cases src with
      | none =>
        have hrd := read_write_address d false ⟨0⟩ rest hdwf2
          (fun hx => Bool.noConfusion hx)
        simp [hrd, read_address_none]
      | some s =>
        have hswf2 : s.wf = true := by simpa using hswf
        have hrd := read_write_address d false ⟨0⟩ (write_address pc s ++ rest) hdwf2
          (fun hx => Bool.noConfusion hx)
        have hpan : pc = true → Address.pan_id s = d.pan_id := by
          intro hpct
          rcases hpc with h1 | h1
          · rw [hpct] at h1
            exact Bool.noConfusion h1
          · simp only [beq_iff_eq] at h1
            exact h1.symm
        have hrs := read_write_address s pc d.pan_id rest hswf2 hpan
        simp [hrd, hrs]

/-- C3: the codec round trip fails on the conditions the claim lists.  The
frame `c3_bad_frame` satisfies every condition of the claim (valid header,
empty payload, at most 7 GTS descriptors and pending addresses, starting
slot and final CAP slot below 16), yet its single GTS descriptor has length
16, which does not survive the 4-bit length field of the serialized
descriptor, so decoding the encoded frame does not return the frame. -/
theorem C3_counterexample :
    Frame.claim_valid c3_bad_frame = true ∧
    Frame.try_read (Frame.try_write c3_bad_frame) ≠ some c3_bad_frame := by
  decide

/-- C3 (amended): for every frame with a valid header (in-range sequence
number and addresses, PAN-id compression only with matching PAN ids, zero
sequence number under suppression), payload at most `aMaxMACPayloadSize`,
and beacon fields within their encodable ranges — the ranges the claim
lists plus each GTS descriptor length below 16 — decoding the encoded
frame yields exactly the frame, consuming the whole buffer. -/
theorem C3_roundtrip (f : Frame) (hwf : Frame.wf f = true) :
    Frame.try_read (Frame.try_write f) = some f := by
  obtain ⟨h, content, payload⟩ := f
  simp only [Frame.wf, Bool.and_eq_true, decide_eq_true_eq] at hwf
  obtain ⟨⟨⟨⟨hh, hft⟩, hpl⟩, hpb⟩, hc⟩ := hwf
  simp only [FrameContent.frame_type] at hft
  cases content with
  | beacon b =>
    have hhr := header_roundtrip h (b.try_write ++ payload) hh
    have hbr := beacon_roundtrip b payload (by simpa using hc)
    simp only [Frame.try_write, List.append_assoc, Frame.try_read, hhr]
    rw [← hft]
    simp [hbr]
  | data =>
    have hhr := header_roundtrip h payload hh
    simp only [Frame.try_write, List.append_assoc, List.nil_append, Frame.try_read, hhr]
    rw [← hft]
  | acknowledgement =>
    have hhr := header_roundtrip h payload hh
    simp only [Frame.try_write, List.append_assoc, List.nil_append, Frame.try_read, hhr]
    rw [← hft]

/-- C3 witness: the full-featured well-formed beacon frame `c3_good_frame`
satisfies the amended validity conditions and round-trips. -/
theorem C3_roundtrip_witness :
    Frame.wf c3_good_frame = true ∧
    Frame.try_read (Frame.try_write c3_good_frame) = some c3_good_frame :=
  ⟨by decide, C3_roundtrip c3_good_frame (by decide)⟩

end LrWpan
